import Mathlib

/-!
Shallow embedding of the TreasuryManagement agent core
(src/services/toolExecutor.tsx and the orchestration loop `runChat`), with
theorems checking the natural-language specification against the code.

Modelling conventions:
* JavaScript numbers are modelled by `JsNum`: exact rationals extended with
  NaN and the two infinities.  Binary64 rounding is abstracted away (the
  claims under verification never depend on rounding), but the IEEE special
  values and JavaScript truncation rules for division by zero are kept.
* A JavaScript scalar (the cell of a `CsvRow`) is a `Value`:
  undefined, null, number, string or boolean; a row is an association list,
  `rowGet` returning `undef` for an absent key exactly as `row[col]` does.
* External capabilities (the JS engine behind `new Function`, `Math.random`,
  the wall clock, html2canvas) are oracle fields of the executor state; the
  code never branches on their values in a way relevant to the claims.
-/

namespace TreasuryAgent

/-- JavaScript number: NaN, +Infinity, -Infinity, or a finite value
(represented exactly as a rational). -/
inductive JsNum where
  | nan : JsNum
  | posInf : JsNum
  | negInf : JsNum
  | fin : ℚ → JsNum
deriving DecidableEq, Repr

namespace JsNum

/-- IEEE-style addition on `JsNum`. -/
def add : JsNum → JsNum → JsNum
  | nan, _ => nan
  | _, nan => nan
  | posInf, negInf => nan
  | negInf, posInf => nan
  | posInf, _ => posInf
  | _, posInf => posInf
  | negInf, _ => negInf
  | _, negInf => negInf
  | fin a, fin b => fin (a + b)

/-- IEEE-style negation on `JsNum`. -/
def neg : JsNum → JsNum
  | nan => nan
  | posInf => negInf
  | negInf => posInf
  | fin a => fin (-a)

/-- IEEE-style subtraction on `JsNum`. -/
def sub (a b : JsNum) : JsNum := add a (neg b)

/-- IEEE-style multiplication on `JsNum`. -/
def mul : JsNum → JsNum → JsNum
  | nan, _ => nan
  | _, nan => nan
  | posInf, posInf => posInf
  | posInf, negInf => negInf
  | negInf, posInf => negInf
  | negInf, negInf => posInf
  | posInf, fin b => if b = 0 then nan else if 0 < b then posInf else negInf
  | fin a, posInf => if a = 0 then nan else if 0 < a then posInf else negInf
  | negInf, fin b => if b = 0 then nan else if 0 < b then negInf else posInf
  | fin a, negInf => if a = 0 then nan else if 0 < a then negInf else posInf
  | fin a, fin b => fin (a * b)

/-- IEEE-style division on `JsNum` (JavaScript `/`): `0/0` is NaN, a nonzero
finite value divided by zero gives a signed infinity. -/
def div : JsNum → JsNum → JsNum
  | nan, _ => nan
  | _, nan => nan
  | posInf, posInf => nan
  | posInf, negInf => nan
  | negInf, posInf => nan
  | negInf, negInf => nan
  | posInf, fin b => if 0 ≤ b then posInf else negInf
  | negInf, fin b => if 0 ≤ b then negInf else posInf
  | fin _, posInf => fin 0
  | fin _, negInf => fin 0
  | fin a, fin b =>
    if b = 0 then
      if a = 0 then nan else if 0 < a then posInf else negInf
    else fin (a / b)

/-- Rational square root helper: exact when the argument is a perfect square
of rationals (the only case exercised by the verified claims), and the floor
square root of numerator and denominator otherwise, standing in for the
binary64 rounding that the embedding abstracts. -/
def ratSqrt (q : ℚ) : ℚ :=
  (Nat.sqrt q.num.toNat : ℚ) / (Nat.sqrt q.den : ℚ)

/-- JavaScript `Math.sqrt` on `JsNum`: NaN for NaN and for negative inputs,
+Infinity for +Infinity. -/
def sqrt : JsNum → JsNum
  | nan => nan
  | posInf => posInf
  | negInf => nan
  | fin a => if a < 0 then nan else fin (ratSqrt a)

/-- JavaScript `<` on numbers: any comparison involving NaN is false. -/
def lt : JsNum → JsNum → Bool
  | nan, _ => false
  | _, nan => false
  | negInf, negInf => false
  | negInf, _ => true
  | _, negInf => false
  | posInf, _ => false
  | fin _, posInf => true
  | fin a, fin b => decide (a < b)

/-- JavaScript `<=` on numbers: any comparison involving NaN is false. -/
def le : JsNum → JsNum → Bool
  | nan, _ => false
  | _, nan => false
  | negInf, _ => true
  | _, negInf => false
  | _, posInf => true
  | posInf, fin _ => false
  | fin a, fin b => decide (a ≤ b)

/-- Numeric equality as JavaScript `==`/`===` computes it on two numbers:
NaN is not equal to anything, including itself. -/
def numEq : JsNum → JsNum → Bool
  | nan, _ => false
  | _, nan => false
  | posInf, posInf => true
  | negInf, negInf => true
  | fin a, fin b => decide (a = b)
  | _, _ => false

/-- True for NaN only (the `isNaN`/self-inequality test). -/
def isNan : JsNum → Bool
  | nan => true
  | _ => false

end JsNum

/-- A JavaScript scalar value as it appears in a `CsvRow` cell: undefined
(also the result of reading an absent property), null, a number, a string or
a boolean. -/
inductive Value where
  | undef : Value
  | null : Value
  | num : JsNum → Value
  | str : String → Value
  | bool : Bool → Value
deriving DecidableEq, Repr

/-- A `CsvRow`: a JavaScript object, modelled as an association list from
property names to values (first binding wins, as property names are unique
in the objects the code builds). -/
abbrev Row : Type := List (String × Value)

/-- Property read `row[col]`: `undef` when the property is absent. -/
def rowGet (r : Row) (k : String) : Value :=
  match List.lookup k r with
  | some v => v
  | none => Value.undef

/-- `row.hasOwnProperty(col)`. -/
def rowHas (r : Row) (k : String) : Bool :=
  (List.lookup k r).isSome

/-- Property write `row[k] = v`: updates the existing binding in place or
appends a new one (JavaScript objects keep insertion order for keys). -/
def rowSet (r : Row) (k : String) (v : Value) : Row :=
  match r with
  | [] => [(k, v)]
  | (k', v') :: rest =>
    if k' = k then (k', v) :: rest else (k', v') :: rowSet rest k v

/-- `Object.keys(row)`. -/
def rowKeys (r : Row) : List String := r.map Prod.fst

/-! String and coercion helpers for JavaScript semantics. -/

/-- JavaScript whitespace (the common members; exotic Unicode space
characters are not exercised by the code). -/
def jsWhitespace (c : Char) : Bool :=
  c = ' ' || c = Char.ofNat 9 || c = Char.ofNat 10 || c = Char.ofNat 13 ||
  c = Char.ofNat 11 || c = Char.ofNat 12 || c = Char.ofNat 160

/-- `String.prototype.trim` on a character list. -/
def jsTrimList (cs : List Char) : List Char :=
  ((cs.dropWhile jsWhitespace).reverse.dropWhile jsWhitespace).reverse

/-- `String.prototype.trim`. -/
def jsTrim (s : String) : String := String.mk (jsTrimList s.data)

/-- Substring containment on character lists (JavaScript `includes`). -/
def listHasSub (pat : List Char) : List Char → Bool
  | [] => List.isPrefixOf pat []
  | c :: rest => List.isPrefixOf pat (c :: rest) || listHasSub pat rest

/-- JavaScript `String.prototype.includes`. -/
def strIncludes (hay pat : String) : Bool := listHasSub pat.data hay.data

/-- ASCII decimal digit test. -/
def isDigitChar (c : Char) : Bool := '0' ≤ c && c ≤ '9'

/-- Numeric value of a list of ASCII digits (most significant first). -/
def digitsVal (cs : List Char) : Nat :=
  cs.foldl (fun acc c => acc * 10 + (c.toNat - 48)) 0

/-- Parse the optional exponent suffix of a JavaScript numeric literal;
`none` on malformed or trailing input. -/
def parseExpPart : List Char → Option ℤ
  | [] => some 0
  | c :: rest =>
    if c = 'e' || c = 'E' then
      match rest with
      | '+' :: ds => if ds ≠ [] && ds.all isDigitChar then some (digitsVal ds) else none
      | '-' :: ds => if ds ≠ [] && ds.all isDigitChar then some (-(digitsVal ds : ℤ)) else none
      | ds => if ds ≠ [] && ds.all isDigitChar then some (digitsVal ds) else none
    else none

/-- Parse the unsigned body of a JavaScript decimal numeric literal
(`123`, `1.5`, `.5`, `5.`, with an optional exponent); hexadecimal and other
radix prefixes are not exercised by the code and are not modelled. -/
def parseDecBody (cs : List Char) : Option ℚ :=
  let ip := cs.takeWhile isDigitChar
  let r1 := cs.dropWhile isDigitChar
  match r1 with
  | '.' :: r2 =>
    let fp := r2.takeWhile isDigitChar
    let r3 := r2.dropWhile isDigitChar
    if ip = [] && fp = [] then none
    else match parseExpPart r3 with
      | some e =>
        some (((digitsVal ip : ℚ) + (digitsVal fp : ℚ) / (10 : ℚ) ^ fp.length) * (10 : ℚ) ^ e)
      | none => none
  | _ =>
    if ip = [] then none
    else match parseExpPart r1 with
      | some e => some ((digitsVal ip : ℚ) * (10 : ℚ) ^ e)
      | none => none

/-- JavaScript `Number(string)`: trimmed empty string is 0, `Infinity`
with optional sign is infinite, otherwise a decimal literal or NaN. -/
def jsStrToNum (s : String) : JsNum :=
  let t := jsTrimList s.data
  if t = [] then .fin 0
  else
    let core := fun (body : List Char) (sign : ℚ) =>
      if body = ['I', 'n', 'f', 'i', 'n', 'i', 't', 'y'] then
        if sign = 1 then JsNum.posInf else JsNum.negInf
      else match parseDecBody body with
        | some q => JsNum.fin (sign * q)
        | none => JsNum.nan
    match t with
    | '+' :: body => core body 1
    | '-' :: body => core body (-1)
    | body => core body 1

/-- JavaScript `Number(value)` (`ToNumber`) on scalars. -/
def toNumber : Value → JsNum
  | .undef => .nan
  | .null => .fin 0
  | .num n => n
  | .str s => jsStrToNum s
  | .bool b => .fin (if b then 1 else 0)

/-- Digit characters of a natural number, most significant first, by fuel
(structural, so that concrete computations reduce). -/
def natToStringAux : Nat → Nat → List Char
  | 0, _ => []
  | fuel + 1, n =>
    if n = 0 then []
    else natToStringAux fuel (n / 10) ++ [Nat.digitChar (n % 10)]

/-- Decimal print of a natural number (`${n}` in a template literal). -/
def natToString (n : Nat) : String :=
  if n = 0 then "0" else String.mk (natToStringAux (n + 1) n)

/-- Left-pad a digit string with zeros to the given length. -/
def padZeros (len : Nat) (s : String) : String :=
  String.mk (List.replicate (len - s.data.length) '0') ++ s

/-- Decimal print of a nonnegative rational.  If the value terminates within
40 decimal places it is printed exactly (all values exercised by the claims
do); otherwise 20 places are printed, standing in for the shortest-roundtrip
printing of binary64 that the embedding abstracts. -/
def ratToDecString (q : ℚ) : String :=
  match (List.range 41).find? (fun k => (q * (10 : ℚ) ^ k).den = 1) with
  | some 0 => natToString q.num.toNat
  | some k =>
    let m := natToString (q * (10 : ℚ) ^ k).num.toNat
    let p := padZeros (k + 1) m
    let cut := p.data.length - k
    String.mk (p.data.take cut) ++ "." ++ String.mk (p.data.drop cut)
  | none =>
    let ipart := ⌊q⌋.toNat
    let fpart := ⌊(q - (ipart : ℚ)) * (10 : ℚ) ^ (20 : ℕ)⌋.toNat
    natToString ipart ++ "." ++ padZeros 20 (natToString fpart)

/-- JavaScript `String(number)`. -/
def numToString : JsNum → String
  | .nan => "NaN"
  | .posInf => "Infinity"
  | .negInf => "-Infinity"
  | .fin q => if q < 0 then "-" ++ ratToDecString (-q) else ratToDecString q

/-- JavaScript `String(value)` on scalars. -/
def jsToString : Value → String
  | .undef => "undefined"
  | .null => "null"
  | .num n => numToString n
  | .str s => s
  | .bool b => if b then "true" else "false"

/-- JavaScript loose equality `==` restricted to the scalar values of a
`CsvRow` (numbers, strings, booleans, null, undefined). -/
def jsLooseEq : Value → Value → Bool
  | .undef, .undef => true
  | .undef, .null => true
  | .null, .undef => true
  | .null, .null => true
  | .undef, _ => false
  | _, .undef => false
  | .null, _ => false
  | _, .null => false
  | .num a, .num b => JsNum.numEq a b
  | .str a, .str b => a = b
  | .bool a, .bool b => a = b
  | .num a, .str s => JsNum.numEq a (jsStrToNum s)
  | .str s, .num b => JsNum.numEq (jsStrToNum s) b
  | .bool a, .num b => JsNum.numEq (.fin (if a then 1 else 0)) b
  | .num a, .bool b => JsNum.numEq a (.fin (if b then 1 else 0))
  | .bool a, .str s => JsNum.numEq (.fin (if a then 1 else 0)) (jsStrToNum s)
  | .str s, .bool b => JsNum.numEq (jsStrToNum s) (.fin (if b then 1 else 0))

/-- JavaScript `<` on scalars: lexicographic when both operands are strings,
numeric (after `ToNumber`, false on NaN) otherwise.  String order on
code points matches the UTF-16 order the engine uses for the characters the
code handles. -/
def jsLtVal : Value → Value → Bool
  | .str a, .str b => decide (a < b)
  | a, b => JsNum.lt (toNumber a) (toNumber b)

/-- JavaScript `<=` on scalars. -/
def jsLeVal : Value → Value → Bool
  | .str a, .str b => decide (a ≤ b)
  | a, b => JsNum.le (toNumber a) (toNumber b)

/-- ASCII lower-casing (`toLowerCase` for the characters the code handles). -/
def strToLower (s : String) : String := String.mk (s.data.map Char.toLower)

/-- The comparison at the heart of `filterData`, one case per operator of
the `switch`; an unrecognized operator compares as false. -/
def compareVals (operator : String) (rowVal value : Value) : Bool :=
  if operator = "==" then jsLooseEq rowVal value
  else if operator = "!=" then !jsLooseEq rowVal value
  else if operator = ">" then jsLtVal value rowVal
  else if operator = "<" then jsLtVal rowVal value
  else if operator = ">=" then jsLeVal value rowVal
  else if operator = "<=" then jsLeVal rowVal value
  else if operator = "contains" then
    strIncludes (strToLower (jsToString rowVal)) (strToLower (jsToString value))
  else false

/-! Result payloads, artifacts, datasets and executor state. -/

/-- A JavaScript value tree, used for the `result` payload a tool returns
to the model (the source builds these as object literals). -/
inductive Json where
  | undef : Json
  | null : Json
  | num : JsNum → Json
  | str : String → Json
  | bool : Bool → Json
  | arr : List Json → Json
  | obj : List (String × Json) → Json

/-- Embed a scalar `Value` into a payload tree. -/
def Json.ofValue : Value → Json
  | .undef => .undef
  | .null => .null
  | .num n => .num n
  | .str s => .str s
  | .bool b => .bool b

/-- Embed a row into a payload tree. -/
def Json.ofRow (r : Row) : Json :=
  .obj (r.map (fun p => (p.1, Json.ofValue p.2)))

/-- Embed a list of rows into a payload tree. -/
def Json.ofRows (rs : List Row) : Json := .arr (rs.map Json.ofRow)

/-- Field lookup in an object payload. -/
def Json.getField (j : Json) (k : String) : Option Json :=
  match j with
  | .obj fields => List.lookup k fields
  | _ => none

/-- A produced artifact (the `VisualContent` union of the source, as the
tool executor builds its members).  `render_table` produces none; the
`report` variant carries the referenced artifacts and an optional preview
image. -/
inductive Artifact where
  | table : String → List Row → Artifact
  | barChart : String → List Row → String → String → Artifact
  | pieChart : String → List Row → String → String → Artifact
  | lineChart : String → List Row → String → List String → Artifact
  | worldMap : String → List Row → String → String → Artifact
  | scatterPlot : String → List Row → String → String → Artifact
  | waterfallChart : String → List Row → String → String → Artifact
  | report : String → String → List Artifact → Option String → Artifact

/-- The `title` field common to all artifact variants. -/
def Artifact.title : Artifact → String
  | .table t _ => t
  | .barChart t _ _ _ => t
  | .pieChart t _ _ _ => t
  | .lineChart t _ _ _ => t
  | .worldMap t _ _ _ => t
  | .scatterPlot t _ _ _ => t
  | .waterfallChart t _ _ _ => t
  | .report t _ _ _ => t

/-- The spread `{ ...artifact, title: newTitle }`. -/
def Artifact.withTitle : Artifact → String → Artifact
  | .table _ d, t => .table t d
  | .barChart _ d c v, t => .barChart t d c v
  | .pieChart _ d c v, t => .pieChart t d c v
  | .lineChart _ d x ys, t => .lineChart t d x ys
  | .worldMap _ d l v, t => .worldMap t d l v
  | .scatterPlot _ d x y, t => .scatterPlot t d x y
  | .waterfallChart _ d c v, t => .waterfallChart t d c v
  | .report _ s a i, t => .report t s a i

/-- The statistics block of a stored dataset. -/
structure DataSetStats where
  rows : Nat
  columns : Nat
  columnNames : List String
deriving DecidableEq, Repr

/-- A stored dataset (`DataSet` of the source). -/
structure DataSet where
  name : String
  data : List Row
  stats : DataSetStats
deriving DecidableEq, Repr

/-- Association-list write with JavaScript object-assignment semantics. -/
def assocSet {α : Type} (l : List (String × α)) (k : String) (v : α) :
    List (String × α) :=
  match l with
  | [] => [(k, v)]
  | (k', v') :: rest =>
    if k' = k then (k', v) :: rest else (k', v') :: assocSet rest k v

/-- The mutable state of a `ToolExecutor`, together with the external
capabilities the executor calls out to (modelled as oracle fields that the
verified claims never depend on): the JavaScript engine behind
`new Function` (`evalExpr`, `none` meaning a `SyntaxError`), the
`Math.random()` stream consumed by the forex scenario generator, the wall
clock, and the html2canvas report renderer (empty string meaning failure). -/
structure ExecState where
  dataContext : List (String × DataSet)
  intermediateData : List (String × DataSet)
  stepCounter : Nat
  artifacts : List Artifact
  evalExpr : String → Except String (Row → Value)
  randoms : Nat → ℚ
  todayMs : Int
  renderImageResult : String

/-- `getDataset`: intermediate store first, then the base context;
otherwise the not-found error. -/
def getDataset (s : ExecState) (name : String) : Except String DataSet :=
  match List.lookup name s.intermediateData with
  | some ds => .ok ds
  | none =>
    match List.lookup name s.dataContext with
    | some ds => .ok ds
    | none => .error ("Dataset \"" ++ name ++ "\" not found.")

/-- Column names of a saved row list (`Object.keys` of the first row). -/
def headColumnNames (data : List Row) : List String :=
  match data with
  | [] => []
  | r :: _ => rowKeys r

/-- `saveResult`: advance the step counter, store the rows under the next
sequential `step_<n>_result` name, return the new state and the name. -/
def saveResult (s : ExecState) (data : List Row) : ExecState × String :=
  let c := s.stepCounter + 1
  let newName := "step_" ++ natToString c ++ "_result"
  let ds : DataSet :=
    { name := newName
      data := data
      stats :=
        { rows := data.length
          columns := (headColumnNames data).length
          columnNames := headColumnNames data } }
  ({ s with
      stepCounter := c
      intermediateData := assocSet s.intermediateData newName ds }, newName)

/-! d3 numeric helpers (the subset the executor uses), over `JsNum`. -/

/-- `d3.sum`: sum of the values, NaN entries skipped, 0 for empty input. -/
def d3sum (l : List JsNum) : JsNum :=
  (l.filter (fun v => !v.isNan)).foldl JsNum.add (.fin 0)

/-- `d3.mean`: `undefined` (here `none`) when no valid value exists. -/
def d3mean (l : List JsNum) : Option JsNum :=
  let vs := l.filter (fun v => !v.isNan)
  if vs.length = 0 then none
  else some (JsNum.div (d3sum vs) (.fin vs.length))

/-- `d3.max` over scalar values, with d3's skip rule: a value participates
only if it compares as at least itself (which drops NaN). -/
def d3maxVal (l : List Value) : Option Value :=
  l.foldl
    (fun acc v =>
      match acc with
      | none => if jsLeVal v v then some v else none
      | some m => if jsLtVal m v then some v else some m)
    none

/-- `d3.min` over scalar values, symmetric to `d3maxVal`. -/
def d3minVal (l : List Value) : Option Value :=
  l.foldl
    (fun acc v =>
      match acc with
      | none => if jsLeVal v v then some v else none
      | some m => if jsLtVal v m then some v else some m)
    none

/-- `d3.quantile` on an ascending list (linear interpolation, R-7). -/
def d3quantileSorted (vs : List JsNum) (p : ℚ) : Option JsNum :=
  match vs with
  | [] => none
  | [v] => some v
  | _ =>
    let n := vs.length
    let h : ℚ := (n - 1 : ℚ) * p
    let i : Nat := ⌊h⌋.toNat
    let a := vs.getD i .nan
    let b := vs.getD (i + 1) a
    some (JsNum.add a (JsNum.mul (JsNum.sub b a) (.fin (h - i))))

/-- Stable insertion of an element before the first entry it compares at
or below. -/
def stableInsert {a : Type} (le : a → a → Bool) (x : a) : List a → List a
  | [] => [x]
  | y :: ys => if le x y then x :: y :: ys else y :: stableInsert le x ys

/-- A stable ascending sort by the given comparator (extensionally the
stable sort the JavaScript engine performs). -/
def stableSortBy {a : Type} (le : a → a → Bool) : List a → List a
  | [] => []
  | x :: xs => stableInsert le x (stableSortBy le xs)

/-- Sort a list of numbers ascending by the JavaScript `(a, b) => a - b`
comparator (the NaN-free inputs the code supplies are totally ordered). -/
def sortNums (l : List JsNum) : List JsNum :=
  stableSortBy JsNum.le l

/-- `d3.median`: the 0.5 quantile of the valid values, sorted. -/
def d3median (l : List JsNum) : Option JsNum :=
  d3quantileSorted (sortNums (l.filter (fun v => !v.isNan))) (1 / 2)

/-- `d3.deviation`: sample standard deviation, `undefined` below 2 valid
values. -/
def d3deviation (l : List JsNum) : Option JsNum :=
  let vs := l.filter (fun v => !v.isNan)
  if vs.length < 2 then none
  else
    match d3mean vs with
    | none => none
    | some m =>
      let sq := vs.map (fun v => JsNum.mul (JsNum.sub v m) (JsNum.sub v m))
      some (JsNum.sqrt (JsNum.div (d3sum sq) (.fin (vs.length - 1 : ℕ))))

/-- `d3.max` over numbers only. -/
def d3maxNum (l : List JsNum) : Option JsNum :=
  l.foldl
    (fun acc v =>
      match acc with
      | none => if !v.isNan then some v else none
      | some m => if JsNum.lt m v then some v else some m)
    none

/-- `d3.min` over numbers only. -/
def d3minNum (l : List JsNum) : Option JsNum :=
  l.foldl
    (fun acc v =>
      match acc with
      | none => if !v.isNan then some v else none
      | some m => if JsNum.lt v m then some v else some m)
    none

/-! Calendar arithmetic for the `Date` values the executor manipulates
(proleptic Gregorian, UTC).  Timestamps are integers of milliseconds since
the epoch, exactly `Date.getTime()`. -/

/-- Days since 1970-01-01 of a civil date (the standard era-based
computation; the year is shifted by +400 so every intermediate division has
nonnegative operands). -/
def daysFromCivil (y m d : Int) : Int :=
  let ys := y + 400
  let yadj := if m ≤ 2 then ys - 1 else ys
  let era := Int.fdiv yadj 400
  let yoe := yadj - era * 400
  let mp := Int.fmod (m + 9) 12
  let doy := Int.fdiv (153 * mp + 2) 5 + d - 1
  let doe := yoe * 365 + Int.fdiv yoe 4 - Int.fdiv yoe 100 + doy
  era * 146097 + doe - 719468 - 146097

/-- Civil date `(year, month, day)` of a day count since 1970-01-01
(inverse of `daysFromCivil`, same +400-year shift). -/
def civilFromDays (z0 : Int) : Int × Int × Int :=
  let z := z0 + 719468 + 146097
  let era := Int.fdiv z 146097
  let doe := z - era * 146097
  let yoe := Int.fdiv (doe - Int.fdiv doe 1460 + Int.fdiv doe 36524 - Int.fdiv doe 146096) 365
  let y := yoe + era * 400
  let doy := doe - (365 * yoe + Int.fdiv yoe 4 - Int.fdiv yoe 100)
  let mp := Int.fdiv (5 * doy + 2) 153
  let d := doy - Int.fdiv (153 * mp + 2) 5 + 1
  let m := if mp < 10 then mp + 3 else mp - 9
  ((if m ≤ 2 then y + 1 else y) - 400, m, d)

/-- Milliseconds per day. -/
def msPerDay : Int := 86400000

/-- Days in a month of the proleptic Gregorian calendar. -/
def daysInMonth (y m : Int) : Int :=
  if m = 2 then
    if Int.fmod y 4 = 0 && (Int.fmod y 100 ≠ 0 || Int.fmod y 400 = 0) then 29 else 28
  else if m = 4 || m = 6 || m = 9 || m = 11 then 30
  else 31

/-- Parse a `YYYY-MM-DD` string to a timestamp.  JavaScript `new Date` also
accepts longer ISO forms with a time part; the code under verification only
produces and consumes bare dates, which is what is modelled. -/
def parseDateStr (s : String) : Option Int :=
  match s.data with
  | [y1, y2, y3, y4, '-', m1, m2, '-', d1, d2] =>
    if [y1, y2, y3, y4, m1, m2, d1, d2].all isDigitChar then
      let y : Int := digitsVal [y1, y2, y3, y4]
      let m : Int := digitsVal [m1, m2]
      let d : Int := digitsVal [d1, d2]
      if 1 ≤ m && m ≤ 12 && 1 ≤ d && d ≤ daysInMonth y m then
        some (daysFromCivil y m d * msPerDay)
      else none
    else none
  | _ => none

/-- `new Date(value).getTime()` for a scalar, `none` for an Invalid Date:
strings are parsed, numbers are timestamps (truncated toward zero),
`null` and booleans coerce to 0 and 0/1. -/
def jsParseDate : Value → Option Int
  | .str s => parseDateStr s
  | .num (.fin q) => some (Int.tdiv q.num q.den)
  | .num _ => none
  | .null => some 0
  | .bool b => some (if b then 1 else 0)
  | .undef => none

/-- The `YYYY-MM-DD` part of `toISOString()` for a timestamp. -/
def formatDateMs (ms : Int) : String :=
  let day := Int.fdiv ms msPerDay
  let c := civilFromDays day
  padZeros 4 (natToString c.1.toNat) ++ "-" ++
    padZeros 2 (natToString c.2.1.toNat) ++ "-" ++
    padZeros 2 (natToString c.2.2.toNat)

/-- `date.setMonth(date.getMonth() + k)` on a timestamp: month stepping
with JavaScript day-of-month overflow rolling into the following month. -/
def addMonths (ms : Int) (k : Nat) : Int :=
  let day := Int.fdiv ms msPerDay
  let rem := Int.fmod ms msPerDay
  let c := civilFromDays day
  let m0 := c.2.1 - 1 + k
  let y := c.1 + Int.fdiv m0 12
  let m := Int.fmod m0 12 + 1
  daysFromCivil y m c.2.2 * msPerDay + rem

/-! Title bookkeeping of the artifact registry (the rename loop at the end
of `execute`). -/

/-- The candidate title produced by the rename loop:
`` `${originalTitle} (${counter})` ``. -/
def candTitle (orig : String) (c : Nat) : String :=
  orig ++ " (" ++ natToString c ++ ")"

/-- The `while` loop of `execute` that searches for a free title, with an
explicit fuel; `uniqueTitleAux_isSome` below shows the fuel used by
`finalUniqueTitle` always suffices, so the `none` branch is dead. -/
def uniqueTitleAux (titles : List String) (orig : String) :
    Nat → Nat → String → Option String
  | 0, _, _ => none
  | fuel + 1, counter, cur =>
    if cur ∈ titles then
      uniqueTitleAux titles orig fuel (counter + 1) (candTitle orig counter)
    else some cur

/-- The final title `execute` registers an artifact under. -/
def finalUniqueTitle (titles : List String) (orig : String) : String :=
  (uniqueTitleAux titles orig (titles.length + 1) 2 orig).getD orig

/-- Registration of a produced artifact at the end of `execute`: rename to
a free title, push onto the registry, hand the renamed artifact back. -/
def registerArtifact (artifacts : List Artifact) (a : Artifact) :
    List Artifact × Artifact :=
  let finalTitle := finalUniqueTitle (artifacts.map Artifact.title) a.title
  let finalArtifact := a.withTitle finalTitle
  (artifacts ++ [finalArtifact], finalArtifact)

/-! Remaining string helpers used by individual tools. -/

/-- ASCII upper-casing (`toUpperCase` for the characters the code
handles). -/
def strToUpper (s : String) : String := String.mk (s.data.map Char.toUpper)

/-- Replace the first occurrence of `pat` (a nonempty literal string) in
`hay`, as JavaScript `String.prototype.replace` with a string pattern. -/
def replaceFirstList (hay pat repl : List Char) : List Char :=
  match hay with
  | [] => []
  | c :: rest =>
    if List.isPrefixOf pat (c :: rest) then repl ++ (c :: rest).drop pat.length
    else c :: replaceFirstList rest pat repl

/-- `String.prototype.replace` with a literal string pattern. -/
def strReplaceFirst (hay pat repl : String) : String :=
  String.mk (replaceFirstList hay.data pat.data repl.data)

/-- Replace every occurrence of a single character (used for
`replace(/\|/g, ...)` and `replace('/', '_')`-style rewrites that are
global). -/
def strReplaceAllChar (s : String) (c : Char) (repl : List Char) : String :=
  String.mk (s.data.flatMap (fun x => if x = c then repl else [x]))

/-- A single-quote character, written via its code point. -/
def sq : String := String.singleton (Char.ofNat 39)

/-- A backslash character. -/
def bsl : String := String.singleton (Char.ofNat 92)

/-- JavaScript `String.prototype.startsWith` (prefix test on the
character sequence). -/
def jsStartsWith (s pat : String) : Bool := List.isPrefixOf pat.data s.data

/-- JavaScript word character (`\w`). -/
def isWordChar (c : Char) : Bool :=
  isDigitChar c || ('a' ≤ c && c ≤ 'z') || ('A' ≤ c && c ≤ 'Z') || c = '_'

/-! The transformation library: one definition per tool, each of type
`ExecState → args → ExecState × Except String ExecOut`.  The returned state
is the executor state at the point the function returned or threw; every
state mutation of the source (`saveResult`) is threaded at the position it
occupies in the source control flow. -/

/-- What a tool hands back to `execute`. -/
structure ExecOut where
  result : Json
  artifact : Option Artifact
  newDataSet : Option DataSet

/-- Encode a list of column names as a payload array. -/
def Json.ofStrings (l : List String) : Json := .arr (l.map .str)

/-- Encode an optional d3 statistic (`undefined` when absent). -/
def Json.ofOptNum : Option JsNum → Json
  | some n => .num n
  | none => Json.undef

/-- `getColumnType` of the source: `number`, `date` (a `YYYY-MM-DD` string
that parses as a valid date), `string`, `boolean`, or `unknown` for
null/undefined. -/
def getColumnType (v : Value) : String :=
  match v with
  | .null => "unknown"
  | .undef => "unknown"
  | .num _ => "number"
  | .str s => if (parseDateStr s).isSome then "date" else "string"
  | .bool _ => "boolean"

/-- A cell participates in type inference / validity only when it is
neither null nor undefined. -/
def isPresent (v : Value) : Bool := !(v == Value.undef) && !(v == Value.null)

/-- `get_dataset_schema`. -/
def getDatasetSchema (s : ExecState) (dataset_name : String) :
    ExecState × Except String ExecOut :=
  match getDataset s dataset_name with
  | .error e => (s, .error e)
  | .ok dataset =>
    if dataset.data.length = 0 then
      (s, .ok
        { result := .obj
            [("columns", .arr (dataset.stats.columnNames.map
               (fun n => .obj [("name", .str n), ("type", .str "unknown")]))),
             ("preview_rows", .arr [])]
          artifact := none
          newDataSet := none })
    else
      let column_types := dataset.stats.columnNames.map (fun colName =>
        let t :=
          match dataset.data.find? (fun r => isPresent (rowGet r colName)) with
          | some r => getColumnType (rowGet r colName)
          | none => "unknown"
        Json.obj [("name", .str colName), ("type", .str t)])
      (s, .ok
        { result := .obj
            [("columns", .arr column_types),
             ("preview_rows", Json.ofRows (dataset.data.take 5))]
          artifact := none
          newDataSet := none })

/-- The row predicate of `filter_data`: a row with a missing or null filter
column is dropped; otherwise the operator comparison decides. -/
def filterPred (column operator : String) (value : Value) (row : Row) : Bool :=
  let rowVal := rowGet row column
  if rowVal == Value.undef || rowVal == Value.null then false
  else compareVals operator rowVal value

/-- `filter_data`. -/
def filterData (s : ExecState) (dataset_name column operator : String)
    (value : Value) : ExecState × Except String ExecOut :=
  match getDataset s dataset_name with
  | .error e => (s, .error e)
  | .ok dataset =>
    let filtered := dataset.data.filter (filterPred column operator value)
    let saved := saveResult s filtered
    let s1 := saved.1
    let resultName := saved.2
    let newDS : DataSet :=
      { name := resultName
        data := filtered
        stats :=
          { rows := filtered.length
            columns := (headColumnNames filtered).length
            columnNames := headColumnNames filtered } }
    if filtered.length = 0 then
      (s1, .ok
        { result := .obj
            [("new_dataset_name", .str resultName),
             ("rows", .num (.fin 0)),
             ("columns", Json.ofStrings newDS.stats.columnNames),
             ("warning", .str ("指定された条件（列: " ++ column ++ ", 条件: " ++
               operator ++ ", 値: " ++ jsToString value ++
               "）でのフィルタリング結果が0件でした。条件が厳しすぎる可能性があります。")),
             ("data_preview", Json.ofRows (filtered.take 5))]
          artifact := none
          newDataSet := some newDS })
    else
      (s1, .ok
        { result := .obj
            [("new_dataset_name", .str resultName),
             ("rows", .num (.fin filtered.length)),
             ("columns", Json.ofStrings newDS.stats.columnNames),
             ("data_preview", Json.ofRows (filtered.take 5))]
          artifact := none
          newDataSet := some newDS })

/-- `Array.prototype.join('-')` element stringification (null and
undefined become the empty string). -/
def joinElemStr (v : Value) : String :=
  match v with
  | .null => ""
  | .undef => ""
  | v => jsToString v

/-- Group rows under string keys, preserving first-occurrence key order and
per-group row order (plain-object insertion order; the numeric-key
enumeration quirk of JavaScript objects is not exercised by the claims). -/
def groupRows (rows : List Row) (keyOf : Row → String) :
    List (String × List Row) :=
  rows.foldl
    (fun acc row =>
      let k := keyOf row
      if (List.lookup k acc).isSome then
        acc.map (fun p => if p.1 = k then (p.1, p.2 ++ [row]) else p)
      else acc ++ [(k, [row])])
    []

/-- Per-group aggregation of `aggregate_data`; the unsupported-function
error is raised inside the per-group map, exactly as in the source. -/
def computeGroup (groupByCols : List String) (aggCol aggFunc : String)
    (group : List Row) : Except String Row :=
  let firstRow := group.headD []
  let base := groupByCols.foldl (fun r c => rowSet r c (rowGet firstRow c)) ([] : Row)
  let newAggColName := aggCol ++ "_" ++ aggFunc
  if aggFunc = "sum" then
    let values := (group.map (fun r => toNumber (rowGet r aggCol))).filter
      (fun v => !v.isNan)
    .ok (rowSet base newAggColName (.num (d3sum values)))
  else if aggFunc = "count" then
    .ok (rowSet base newAggColName (.num (.fin group.length)))
  else if aggFunc = "average" then
    let values := (group.map (fun r => toNumber (rowGet r aggCol))).filter
      (fun v => !v.isNan)
    let m :=
      match d3mean values with
      | some m => if m.isNan then JsNum.fin 0 else m
      | none => JsNum.fin 0
    .ok (rowSet base newAggColName (.num m))
  else if aggFunc = "max" then
    let values := (group.map (fun r => rowGet r aggCol)).filter isPresent
    .ok (rowSet base newAggColName ((d3maxVal values).getD .null))
  else if aggFunc = "min" then
    let values := (group.map (fun r => rowGet r aggCol)).filter isPresent
    .ok (rowSet base newAggColName ((d3minVal values).getD .null))
  else .error ("Unsupported aggregation function: " ++ aggFunc)

/-- `aggregate_data`. -/
def aggregateData (s : ExecState) (dataset_name : String)
    (groupByCols : List String) (aggCol aggFunc : String) :
    ExecState × Except String ExecOut :=
  match getDataset s dataset_name with
  | .error e => (s, .error e)
  | .ok dataset =>
    let groups := groupRows dataset.data
      (fun row => String.intercalate "-" (groupByCols.map (fun c => joinElemStr (rowGet row c))))
    match (groups.map Prod.snd).mapM (computeGroup groupByCols aggCol aggFunc) with
    | .error e => (s, .error e)
    | .ok aggregated =>
      let saved := saveResult s aggregated
      let s1 := saved.1
      let resultName := saved.2
      let cols := headColumnNames aggregated
      let preview := Json.ofRows (aggregated.take 5)
      if aggregated.length = 1 then
        (s1, .ok
          { result := .obj
              [("new_dataset_name", .str resultName),
               ("rows", .num (.fin aggregated.length)),
               ("data", Json.ofRow (aggregated.headD [])),
               ("columns", Json.ofStrings cols),
               ("data_preview", preview)]
            artifact := none
            newDataSet := some
              { name := resultName, data := aggregated,
                stats := { rows := aggregated.length, columns := cols.length,
                           columnNames := cols } } })
      else
        (s1, .ok
          { result := .obj
              [("new_dataset_name", .str resultName),
               ("rows", .num (.fin aggregated.length)),
               ("columns", Json.ofStrings cols),
               ("data_preview", preview)]
            artifact := none
            newDataSet := some
              { name := resultName, data := aggregated,
                stats := { rows := aggregated.length, columns := cols.length,
                           columnNames := cols } } })

/-- First occurrence of the scalar-reference pattern `[word].word` in an
expression (the `/\[(\w+)\]\.(\w+)/` scan): the matched text, the dataset
name and the column name. -/
def findScalarPat : List Char → Option (List Char × String × String)
  | [] => none
  | '[' :: rest =>
    let w := rest.takeWhile isWordChar
    let r2 := rest.dropWhile isWordChar
    if w ≠ [] then
      match r2 with
      | ']' :: '.' :: r3 =>
        let w2 := r3.takeWhile isWordChar
        if w2 ≠ [] then
          some ('[' :: (w ++ ']' :: '.' :: w2), String.mk w, String.mk w2)
        else findScalarPat rest
      | _ => findScalarPat rest
    else findScalarPat rest
  | _ :: rest => findScalarPat rest

/-- Escape single quotes (`replace(/'/g, "\\'")`). -/
def escapeQuotes (s : String) : String :=
  String.mk (s.data.flatMap
    (fun c => if c = Char.ofNat 39 then [Char.ofNat 92, Char.ofNat 39] else [c]))

/-- The scalar-substitution loop of `add_column`: repeatedly resolve the
first `[dataset].column` reference and splice in its value (single-row and
non-null checks raise the source's errors).  The source iterates with a
stateful global regex on a mutating string; the model rescans from the
start, which agrees on every input the claims exercise, and is
fuel-bounded (substituted values do not reintroduce the pattern). -/
def scalarLoop (s : ExecState) : Nat → String → Except String String
  | 0, expr => .ok expr
  | fuel + 1, expr =>
    match findScalarPat expr.data with
    | none => .ok expr
    | some (patChars, dsName, colName) =>
      match getDataset s dsName with
      | .error e => .error e
      | .ok lookupDataset =>
        if lookupDataset.data.length ≠ 1 then
          .error ("Scalar lookup failed: Dataset \"" ++ dsName ++
            "\" does not have exactly one row.")
        else
          let scalarValue := rowGet (lookupDataset.data.headD []) colName
          if scalarValue == Value.null || scalarValue == Value.undef then
            .error ("Scalar lookup failed: Value from \"" ++ dsName ++ "." ++
              colName ++ "\" is null or undefined.")
          else
            let repl :=
              match scalarValue with
              | .str litStr => sq ++ escapeQuotes litStr ++ sq
              | v => jsToString v
            scalarLoop s fuel (strReplaceFirst expr (String.mk patChars) repl)

/-- A per-row evaluation result degrades to null when it is null, undefined
or a non-finite number. -/
def degradesToNull (v : Value) : Bool :=
  v == Value.null || v == Value.undef ||
    (match v with
     | .num n => n.isNan || n == JsNum.posInf || n == JsNum.negInf
     | _ => false)

/-- `add_column`.  The pure string rewriting that protects string literals
and turns column names into row accesses feeds the JavaScript engine; the
engine (`new Function` plus the per-row call, whose internal catch already
yields null) is the `evalExpr` oracle of the state, applied to the
scalar-substituted expression. -/
def addColumn (s : ExecState) (dataset_name new_column_name expression : String) :
    ExecState × Except String ExecOut :=
  match getDataset s dataset_name with
  | .error e => (s, .error e)
  | .ok dataset =>
    match scalarLoop s (expression.length + 100) expression with
    | .error e => (s, .error e)
    | .ok modifiedExpression =>
      match s.evalExpr modifiedExpression with
      | .error emsg =>
        (s, .error ("Invalid expression format for: \"" ++ expression ++
          "\". Please check the syntax. The final evaluated code was \"" ++
          modifiedExpression ++ "\". Error: " ++ emsg))
      | .ok evaluator =>
        let step := fun (acc : List Row × Nat) (row : Row) =>
          let result := evaluator row
          if degradesToNull result then
            (acc.1 ++ [rowSet row new_column_name .null], acc.2 + 1)
          else (acc.1 ++ [rowSet row new_column_name result], acc.2)
        let folded := dataset.data.foldl step ([], 0)
        let newData := folded.1
        let affectedRowCount := folded.2
        let saved := saveResult s newData
        let s1 := saved.1
        let resultName := saved.2
        let cols := headColumnNames newData
        let baseFields :=
          [("new_dataset_name", Json.str resultName),
           ("rows", Json.num (.fin newData.length)),
           ("columns", Json.ofStrings cols),
           ("data_preview", Json.ofRows (newData.take 5))]
        let fields :=
          if affectedRowCount = 0 then baseFields
          else baseFields ++
            [("warning", Json.str
              ("一部の行で計算が実行できませんでした（例：値がnull、ゼロ除算など）。結果はnullになっています。 (" ++
               natToString affectedRowCount ++ "行が影響を受けました)"))]
        (s1, .ok
          { result := .obj fields
            artifact := none
            newDataSet := some
              { name := resultName, data := newData,
                stats := { rows := newData.length, columns := cols.length,
                           columnNames := cols } } })

/-- `get_descriptive_stats` (no dataset is saved; the call only returns a
statistics payload or throws). -/
def getDescriptiveStats (s : ExecState) (dataset_name column : String) :
    ExecState × Except String ExecOut :=
  match getDataset s dataset_name with
  | .error e => (s, .error e)
  | .ok dataset =>
    let validValues := (dataset.data.map (fun r => rowGet r column)).filter
      (fun v => isPresent v && !(v == Value.str ""))
    if validValues.length = 0 then
      (s, .error ("Column \"" ++ column ++
        "\" is empty or contains only null/empty values."))
    else
      let columnType := getColumnType (validValues.headD .null)
      if columnType = "number" then
        let values := (validValues.map toNumber).filter (fun v => !v.isNan)
        if values.length = 0 then
          (s, .error ("No valid numerical data found in column \"" ++ column ++
            "\" after attempting conversion."))
        else
          let sortedValues := sortNums values
          let stats := Json.obj
            [("count", .num (.fin values.length)),
             ("mean", Json.ofOptNum (d3mean values)),
             ("median", Json.ofOptNum (d3median values)),
             ("std_dev", Json.ofOptNum (d3deviation values)),
             ("min", Json.ofOptNum (d3minNum values)),
             ("max", Json.ofOptNum (d3maxNum values)),
             ("q1", Json.ofOptNum (d3quantileSorted sortedValues (1 / 4))),
             ("q3", Json.ofOptNum (d3quantileSorted sortedValues (3 / 4)))]
          (s, .ok
            { result := .obj
                [("statistics", stats),
                 ("message", .str ("Numerical statistics for column \"" ++
                   column ++ "\" have been calculated."))]
              artifact := none
              newDataSet := none })
      else if columnType = "date" then
        let dateValues := validValues.filterMap jsParseDate
        if dateValues.length = 0 then
          (s, .error ("No valid date data found in column \"" ++ column ++
            "\" after attempting conversion."))
        else
          let uniqueDates := (dateValues.map formatDateMs).eraseDups
          match dateValues.min?, dateValues.max? with
          | some minDate, some maxDate =>
            let duration : ℚ := ((maxDate - minDate : ℤ) : ℚ) / (msPerDay : ℚ)
            let stats := Json.obj
              [("count", .num (.fin dateValues.length)),
               ("unique_count", .num (.fin uniqueDates.length)),
               ("start_date", .str (formatDateMs minDate)),
               ("end_date", .str (formatDateMs maxDate)),
               ("duration_days", .num (.fin (round duration : ℤ)))]
            (s, .ok
              { result := .obj
                  [("statistics", stats),
                   ("message", .str ("Date statistics for column \"" ++ column ++
                     "\" have been calculated."))]
                artifact := none
                newDataSet := none })
          | _, _ =>
            (s, .error ("Could not determine date range for column \"" ++
              column ++ "\""))
      else
        (s, .error ("Column \"" ++ column ++
          "\" does not contain numerical or date data. Its type is \"" ++
          columnType ++ "\"."))

/-- `leftData[col] ?? null` / `rightData[col] ?? null`. -/
def nullCoalesce (v : Value) : Value :=
  if v == Value.undef then .null else v

/-- Read a column from an optional row (`leftRow || {}`). -/
def optRowGet (r : Option Row) (k : String) : Value :=
  match r with
  | some row => rowGet row k
  | none => Value.undef

/-- The `mergeRows` closure of `join_datasets`: left columns first
(null-defaulted), then right columns, coalescing the join key (prefer the
left value, fall back to a non-null right value) and suffixing `_right`
onto a conflicting non-key right column name. -/
def mergeRows (leftCols rightCols : List String)
    (left_on_column right_on_column : String)
    (leftRow rightRow : Option Row) : Row :=
  let step1 := leftCols.foldl
    (fun row col => rowSet row col (nullCoalesce (optRowGet leftRow col))) ([] : Row)
  rightCols.foldl
    (fun row col =>
      if col = right_on_column then
        let rv := optRowGet rightRow col
        if rowGet row left_on_column == Value.null && !(rv == Value.null) then
          rowSet row left_on_column rv
        else row
      else
        let newKey := if rowHas row col then col ++ "_right" else col
        rowSet row newKey (nullCoalesce (optRowGet rightRow col)))
    step1

/-- Build the `Map` that groups right-dataset rows by join key (JavaScript
`Map` keys compare by SameValueZero, which structural equality on `Value`
matches). -/
def groupByKey (rows : List Row) (keyCol : String) : List (Value × List Row) :=
  rows.foldl
    (fun acc row =>
      let k := rowGet row keyCol
      if (List.lookup k acc).isSome then
        acc.map (fun p => if p.1 = k then (p.1, p.2 ++ [row]) else p)
      else acc ++ [(k, [row])])
    []

/-- The join keys of left rows that found a match (`matchedRightKeys`). -/
def matchedKeys (leftRows : List Row) (left_on_column : String)
    (rightGroups : List (Value × List Row)) : List Value :=
  leftRows.filterMap (fun leftRow =>
    let k := rowGet leftRow left_on_column
    if (List.lookup k rightGroups).isSome then some k else none)

/-- The joined rows of `join_datasets` for given column lists: one merged
row per match for inner/left/full (plus a null-padded row for an unmatched
left row under left/full), then null-padded rows for never-matched right
rows under right/full. -/
def joinedRows (leftCols rightCols : List String)
    (left_on_column right_on_column join_type : String)
    (leftRows rightRows : List Row) : List Row :=
  let rightGroups := groupByKey rightRows right_on_column
  let pass1 := leftRows.flatMap (fun leftRow =>
    let key := rowGet leftRow left_on_column
    match List.lookup key rightGroups with
    | some matching =>
      if join_type = "inner" || join_type = "left" || join_type = "full" then
        matching.map (fun rightRow =>
          mergeRows leftCols rightCols left_on_column right_on_column
            (some leftRow) (some rightRow))
      else []
    | none =>
      if join_type = "left" || join_type = "full" then
        [mergeRows leftCols rightCols left_on_column right_on_column
          (some leftRow) none]
      else [])
  let mk := matchedKeys leftRows left_on_column rightGroups
  let pass2 :=
    if join_type = "right" || join_type = "full" then
      (rightRows.filter (fun rightRow =>
        !(mk.contains (rowGet rightRow right_on_column)))).map
        (fun rightRow =>
          mergeRows leftCols rightCols left_on_column right_on_column
            none (some rightRow))
    else []
  pass1 ++ pass2

/-- `join_datasets`. -/
def joinDatasets (s : ExecState)
    (left_dataset_name right_dataset_name left_on_column right_on_column
      join_type : String) : ExecState × Except String ExecOut :=
  if !(join_type = "inner" || join_type = "left" || join_type = "right" ||
       join_type = "full") then
    (s, .error ("Join type \"" ++ join_type ++
      "\" is not supported. Available types: inner, left, right, full."))
  else
    match getDataset s left_dataset_name with
    | .error e => (s, .error e)
    | .ok leftDs =>
      match getDataset s right_dataset_name with
      | .error e => (s, .error e)
      | .ok rightDs =>
        let joinedData := joinedRows leftDs.stats.columnNames
          rightDs.stats.columnNames left_on_column right_on_column join_type
          leftDs.data rightDs.data
        let saved := saveResult s joinedData
        let s1 := saved.1
        let resultName := saved.2
        let cols := headColumnNames joinedData
        let newDS : DataSet :=
          { name := resultName, data := joinedData,
            stats := { rows := joinedData.length, columns := cols.length,
                       columnNames := cols } }
        if joinedData.length = 0 then
          (s1, .ok
            { result := .obj
                [("new_dataset_name", .str resultName),
                 ("rows", .num (.fin 0)),
                 ("columns", Json.ofStrings cols),
                 ("warning", .str ("\"" ++ left_dataset_name ++ "\" と \"" ++
                   right_dataset_name ++
                   "\" の結合結果が0件でした。結合キーが一致していない可能性があります。")),
                 ("data_preview", Json.ofRows (joinedData.take 5))]
              artifact := none
              newDataSet := some newDS })
        else
          (s1, .ok
            { result := .obj
                [("new_dataset_name", .str resultName),
                 ("rows", .num (.fin joinedData.length)),
                 ("columns", Json.ofStrings cols),
                 ("data_preview", Json.ofRows (joinedData.take 5))]
              artifact := none
              newDataSet := some newDS })

/-- `union_datasets`. -/
def unionDatasets (s : ExecState) (dataset_names : List String) :
    ExecState × Except String ExecOut :=
  if dataset_names.length < 2 then
    (s, .error "union_datasets requires an array of at least two dataset names.")
  else
    match dataset_names with
    | [] => (s, .error "union_datasets requires an array of at least two dataset names.")
    | firstName :: restNames =>
      match getDataset s firstName with
      | .error e => (s, .error e)
      | .ok firstDataset =>
        let firstSchema := firstDataset.stats.columnNames
        let collected := restNames.foldlM (m := Except String)
          (fun rows datasetName =>
            match getDataset s datasetName with
            | .error e => .error e
            | .ok currentDataset =>
              if currentDataset.stats.columnNames ≠ firstSchema then
                .error ("Schema mismatch: Dataset \"" ++ datasetName ++
                  "\" does not have the same columns and order as \"" ++
                  firstName ++ "\". Expected [" ++
                  String.intercalate ", " firstSchema ++ "] but got [" ++
                  String.intercalate ", " currentDataset.stats.columnNames ++
                  "].")
              else .ok (rows ++ currentDataset.data))
          firstDataset.data
        match collected with
        | .error e => (s, .error e)
        | .ok allRows =>
          let saved := saveResult s allRows
          let s1 := saved.1
          let resultName := saved.2
          let cols := headColumnNames allRows
          (s1, .ok
            { result := .obj
                [("new_dataset_name", .str resultName),
                 ("rows", .num (.fin allRows.length)),
                 ("columns", Json.ofStrings cols),
                 ("data_preview", Json.ofRows (allRows.take 5))]
              artifact := none
              newDataSet := some
                { name := resultName, data := allRows,
                  stats := { rows := allRows.length, columns := cols.length,
                             columnNames := cols } } })

/-- One parsed time-series point of `forecast_time_series`. -/
structure ParsedPoint where
  row : Row
  t : Int
  v : JsNum

/-- One calendar step at the requested frequency (the `switch` has no
default, so an unknown frequency leaves the date unchanged). -/
def stepFreq (frequency : String) (t : Int) : Int :=
  if frequency = "daily" then t + msPerDay
  else if frequency = "monthly" then addMonths t 1
  else if frequency = "quarterly" then addMonths t 3
  else t

/-- The future dates of the forecast: `forecast_periods` consecutive
calendar steps from the last observed date. -/
def futureTimes (frequency : String) (lastT : Int) (forecast_periods : Nat) :
    List Int :=
  ((List.range forecast_periods).foldl
    (fun (acc : List Int × Int) _ =>
      let t := stepFreq frequency acc.2
      (acc.1 ++ [t], t))
    ([], lastT)).1

/-- The parsed `(date, value)` points of `forecast_time_series`: rows with
an unparseable date or a NaN value are dropped, the rest sorted ascending
by date (stable, as the engine's sort). -/
def forecastParsedData (data : List Row) (date_column value_column : String) :
    List ParsedPoint :=
  stableSortBy (fun a b => decide (a.t ≤ b.t))
    (data.filterMap (fun row =>
      match jsParseDate (rowGet row date_column) with
      | none => none
      | some t =>
        let v := toNumber (rowGet row value_column)
        if v.isNan then none else some (ParsedPoint.mk row t v)))

/-! IEEE-754 binary64 rounding, made explicit for the arithmetic of
`forecast_time_series`: its claimed property depends on the rounding of
the least-squares fit, unlike the other tools' claims, which are
rounding-independent and are stated over the exact-rational operations. -/

/-- Floor of a rational number. -/
def ratFloorI (q : ℚ) : Int := Int.fdiv q.num (q.den : Int)

/-- Floor base-2 logarithm of a natural number, by fuel. -/
def natLog2F : Nat → Nat → Nat
  | 0, _ => 0
  | fuel + 1, n => if 2 ≤ n then natLog2F fuel (n / 2) + 1 else 0

/-- Floor base-2 logarithm of a natural number (`natLog2F` with enough
fuel). -/
def natLog2 (n : Nat) : Nat := natLog2F n n

/-- `2 ^ e` as a rational, for an integer exponent. -/
def pow2 (e : Int) : ℚ :=
  if 0 ≤ e then ((2 ^ e.toNat : Nat) : ℚ)
  else 1 / ((2 ^ (-e).toNat : Nat) : ℚ)

/-- Floor base-2 logarithm of a positive rational: the unique `e` with
`2 ^ e ≤ a < 2 ^ (e + 1)`. -/
def ratLog2 (a : ℚ) : Int :=
  let e0 : Int := (natLog2 a.num.toNat : Int) - (natLog2 a.den : Int)
  if a < pow2 e0 then e0 - 1 else e0

/-- Round a nonnegative rational to the nearest integer, ties to even. -/
def roundHalfEven (m : ℚ) : Int :=
  let f := ratFloorI m
  let frac := m - (f : ℚ)
  if frac < 1 / 2 then f
  else if 1 / 2 < frac then f + 1
  else if Int.emod f 2 = 0 then f else f + 1

/-- Round a rational to the IEEE-754 binary64 grid: round to nearest, ties
to even, with a 53-bit significand, gradual underflow below `2 ^ (-1022)`
(grid step `2 ^ (-1074)`); the caller maps an overflowed result to the
signed infinity. -/
def flRat (q : ℚ) : ℚ :=
  if q = 0 then 0
  else
    let a := if q < 0 then -q else q
    let e := ratLog2 a
    let shift : Int := max (e - 52) (-1074)
    let m := a / pow2 shift
    let rn := roundHalfEven m
    let r := (rn : ℚ) * pow2 shift
    if q < 0 then -r else r

/-- Binary64 rounding of a JavaScript number: finite values snap to the
double grid, a rounded magnitude of `2 ^ 1024` overflows to the signed
infinity, and NaN and the infinities pass through. -/
def f64 : JsNum → JsNum
  | .nan => .nan
  | .posInf => .posInf
  | .negInf => .negInf
  | .fin q =>
    let r := flRat q
    if pow2 1024 ≤ r then .posInf
    else if r ≤ -(pow2 1024) then .negInf
    else .fin r

/-- Binary64 addition: the exact sum, rounded. -/
def addF (a b : JsNum) : JsNum := f64 (JsNum.add a b)

/-- Binary64 subtraction: the exact difference, rounded. -/
def subF (a b : JsNum) : JsNum := f64 (JsNum.sub a b)

/-- Binary64 multiplication: the exact product, rounded. -/
def mulF (a b : JsNum) : JsNum := f64 (JsNum.mul a b)

/-- Binary64 division: the exact quotient, rounded (the zero-divisor cases
are already the IEEE results). -/
def divF (a b : JsNum) : JsNum := f64 (JsNum.div a b)

/-- `d3.sum` with its binary64 accumulation explicit: `sum += value` left
to right, skipping NaN and zero (`if (value = +value)`); the skipped zeros
do not change a binary64 sum. -/
def d3sumF (l : List JsNum) : JsNum :=
  l.foldl (fun acc v =>
    match v with
    | .nan => acc
    | .fin q => if q = 0 then acc else addF acc v
    | _ => addF acc v) (JsNum.fin 0)

/-- `forecast_time_series`: parse and sort the points, require at least
two, fit ordinary least squares in binary64 arithmetic (each JavaScript
operator rounds), extrapolate with a ±1.96·stdError band. -/
def forecastTimeSeries (s : ExecState)
    (dataset_name date_column value_column : String)
    (forecast_periods : Nat) (frequency : String) :
    ExecState × Except String ExecOut :=
  match getDataset s dataset_name with
  | .error e => (s, .error e)
  | .ok dataset =>
    let parsedData := forecastParsedData dataset.data date_column value_column
    if parsedData.length < 2 then
      (s, .error "Time series forecasting requires at least two data points.")
    else
      let n := parsedData.length
      let x := parsedData.map (fun d => JsNum.fin d.t)
      let sumX := d3sumF x
      let sumY := d3sumF (parsedData.map ParsedPoint.v)
      let sumXY := d3sumF (parsedData.map (fun d => mulF (.fin d.t) d.v))
      let sumX2 := d3sumF (x.map (fun v => mulF v v))
      let nn := JsNum.fin n
      let slope := divF (subF (mulF nn sumXY) (mulF sumX sumY))
        (subF (mulF nn sumX2) (mulF sumX sumX))
      let intercept := divF (subF sumY (mulF slope sumX)) nn
      let predict := fun (t : JsNum) => addF (mulF slope t) intercept
      let residuals := parsedData.map (fun d => subF d.v (predict (.fin d.t)))
      let sse := d3sumF (residuals.map (fun r => mulF r r))
      let stdError := JsNum.sqrt (divF sse (.fin (n - 2 : ℕ)))
      let lastT := ((parsedData.getLast?).getD (ParsedPoint.mk [] 0 .nan)).t
      let forecastData := (futureTimes frequency lastT forecast_periods).map
        (fun (t : Int) =>
          let base := dataset.stats.columnNames.foldl
            (fun r c => rowSet r c .null) ([] : Row)
          let forecastValue := predict (.fin (t : ℚ))
          let upper := addF forecastValue (mulF (.fin (flRat (196 / 100))) stdError)
          let lower := subF forecastValue (mulF (.fin (flRat (196 / 100))) stdError)
          rowSet (rowSet (rowSet (rowSet base date_column (.str (formatDateMs t)))
            "forecast" (.num forecastValue))
            "forecast_upper" (.num upper))
            "forecast_lower" (.num lower))
      let combinedData := dataset.data.map (fun row =>
        rowSet (rowSet (rowSet row "forecast" .null) "forecast_upper" .null)
          "forecast_lower" .null) ++ forecastData
      let saved := saveResult s combinedData
      let s1 := saved.1
      let resultName := saved.2
      let cols := headColumnNames combinedData
      (s1, .ok
        { result := .obj
            [("new_dataset_name", .str resultName),
             ("rows", .num (.fin combinedData.length)),
             ("message", .str ("Generated a forecast for " ++
               natToString forecast_periods ++ " " ++ frequency ++ " periods.")),
             ("columns", Json.ofStrings cols),
             ("data_preview", Json.ofRows (combinedData.take 5))]
          artifact := none
          newDataSet := some
            { name := resultName, data := combinedData,
              stats := { rows := combinedData.length, columns := cols.length,
                         columnNames := cols } } })

/-- `parseFloat(x.toFixed(4))`: round a finite value to 4 decimal places
(infinities and NaN pass through). -/
def roundTo4 : JsNum → JsNum
  | .fin q => .fin ((round (q * 10000) : ℤ) / (10000 : ℚ))
  | v => v

/-- `calculate_correlated_forex_scenario`: the demo scenario generator.
`Math.random()` draws come from the `randoms` oracle stream in call order
(two up-front draws, then one per generated day). -/
def calculateCorrelatedForexScenario (s : ExecState)
    (base_currency_pair : String) (scenario_rate : ℚ) (periodsArg : Option Nat) :
    ExecState × Except String ExecOut :=
  let periods := periodsArg.getD 30
  let correlated_currency_pair :=
    if strToUpper base_currency_pair = "USD/JPY" then "EUR/JPY"
    else if strToUpper base_currency_pair = "EUR/JPY" then "USD/JPY"
    else "EUR/USD"
  let dummyCurrentBaseRate : ℚ := scenario_rate * (s.randoms 0 * (1 / 10) + 9 / 10)
  let dummyCurrentCorrelatedRate : ℚ :=
    dummyCurrentBaseRate * (11 / 10) * (s.randoms 1 * (2 / 10) + 9 / 10)
  let baseRateChange := JsNum.div (.fin (scenario_rate - dummyCurrentBaseRate))
    (.fin dummyCurrentBaseRate)
  let scenarioCorrelatedRate := JsNum.mul (.fin dummyCurrentCorrelatedRate)
    (JsNum.add (.fin 1) baseRateChange)
  let baseKey := strReplaceFirst base_currency_pair "/" "_" ++ "_rate"
  let corrKey := strReplaceFirst correlated_currency_pair "/" "_" ++ "_rate"
  let scenarioData := (List.range periods).map (fun i0 =>
    let i : ℕ := i0 + 1
    let progress : ℚ := (i : ℚ) / (periods : ℚ)
    let baseRate : ℚ := dummyCurrentBaseRate +
      (scenario_rate - dummyCurrentBaseRate) * progress
    let correlated0 := JsNum.add (.fin dummyCurrentCorrelatedRate)
      (JsNum.mul (JsNum.sub scenarioCorrelatedRate (.fin dummyCurrentCorrelatedRate))
        (.fin progress))
    let noise := JsNum.mul (JsNum.mul (.fin (s.randoms (i + 1) - 1 / 2))
      (.fin (2 / 100))) correlated0
    let correlatedRate := JsNum.add correlated0 noise
    ([("date", Value.str (formatDateMs (s.todayMs + (i : ℤ) * msPerDay))),
      (baseKey, Value.num (roundTo4 (.fin baseRate))),
      (corrKey, Value.num (roundTo4 correlatedRate))] : Row))
  let saved := saveResult s scenarioData
  let s1 := saved.1
  let resultName := saved.2
  let cols := headColumnNames scenarioData
  (s1, .ok
    { result := .obj
        [("new_dataset_name", .str resultName),
         ("rows", .num (.fin scenarioData.length)),
         ("message", .str (base_currency_pair ++ "が" ++
           numToString (.fin scenario_rate) ++ "になった場合の、" ++
           correlated_currency_pair ++ "の仮想レートを" ++ natToString periods ++
           "日間で算出しました。")),
         ("columns", Json.ofStrings cols),
         ("data_preview", Json.ofRows (scenarioData.take 5))]
      artifact := none
      newDataSet := some
        { name := resultName, data := scenarioData,
          stats := { rows := scenarioData.length, columns := cols.length,
                     columnNames := cols } } })

/-- The `columns` argument of `verify_visualization_data` (a record whose
role fields may be absent). -/
structure VizColumns where
  category_column : Option String
  value_column : Option String
  x_column : Option String
  y_column : Option String
  y_columns : Option (List String)
  location_column : Option String
deriving DecidableEq, Repr

/-- `typeof value` for the scalar values. -/
def typeofValue : Value → String
  | .undef => "undefined"
  | .null => "object"
  | .num _ => "number"
  | .str _ => "string"
  | .bool _ => "boolean"

/-- The `checkNumeric` closure of `verify_visualization_data`: `none` means
OK, `some` carries the warning message. -/
def checkNumericCol (dataset_name : String) (dataset : DataSet) (colName : String) :
    Option String :=
  if !(dataset.stats.columnNames.contains colName) then
    some ("Column \"" ++ colName ++ "\" does not exist in dataset \"" ++
      dataset_name ++ "\". Available columns: " ++
      String.intercalate ", " dataset.stats.columnNames)
  else
    match dataset.data.find? (fun r => isPresent (rowGet r colName)) with
    | none => none
    | some firstRowWithValue =>
      let value := rowGet firstRowWithValue colName
      match value with
      | .num _ => none
      | _ =>
        some ("Column \"" ++ colName ++
          "\" is not numeric, which is required for a value axis. Its type is " ++
          typeofValue value ++
          ". Please ensure data is correctly aggregated or the correct column is chosen.")

/-- A warning result payload. -/
def warningResult (message : String) : Json :=
  .obj [("status", .str "WARNING"), ("message", .str message)]

/-- `verify_visualization_data`: the heuristic pre-render guard.  It never
throws for an unsuitable dataset; it reports `OK` or `WARNING`. -/
def verifyVisualizationData (s : ExecState)
    (dataset_name visualization_type : String) (columns : VizColumns) :
    ExecState × Except String ExecOut :=
  match getDataset s dataset_name with
  | .error e => (s, .error e)
  | .ok dataset =>
    if dataset.data.length = 0 then
      (s, .ok
        { result := warningResult ("Dataset \"" ++ dataset_name ++
            "\" is empty. No chart can be generated.")
          artifact := none, newDataSet := none })
    else
      let roles : List (Option String) × Option String :=
        if visualization_type = "bar_chart" || visualization_type = "waterfall_chart" ||
           visualization_type = "pie_chart" then
          ([columns.value_column], columns.category_column)
        else if visualization_type = "line_chart" then
          ((columns.y_columns.getD []).map some, columns.x_column)
        else if visualization_type = "world_map" then
          ([columns.value_column], columns.location_column)
        else if visualization_type = "scatter_plot" then
          ([columns.x_column, columns.y_column], none)
        else ([], none)
      let valueWarn := (roles.1.filterMap (fun oc =>
        match oc with
        | none => none
        | some c => if c = "" then none else checkNumericCol dataset_name dataset c)).head?
      match valueWarn with
      | some w =>
        (s, .ok { result := warningResult w, artifact := none, newDataSet := none })
      | none =>
        let catCheck : Option Json :=
          match roles.2 with
          | none => none
          | some c =>
            if c = "" then none
            else if !(dataset.stats.columnNames.contains c) then
              some (warningResult ("Category column \"" ++ c ++
                "\" does not exist in dataset \"" ++ dataset_name ++
                "\". Available columns: " ++
                String.intercalate ", " dataset.stats.columnNames))
            else
              let uniqueCount := ((dataset.data.map (fun r => rowGet r c)).eraseDups).length
              if uniqueCount > 50 && !(visualization_type = "line_chart") &&
                 !(visualization_type = "world_map") &&
                 !(visualization_type = "scatter_plot") then
                some (warningResult ("The category column \"" ++ c ++ "\" has " ++
                  natToString uniqueCount ++
                  " unique values which may be too many for a clear visualization. The data might not be properly aggregated."))
              else if uniqueCount = 1 &&
                 (visualization_type = "bar_chart" || visualization_type = "line_chart") then
                some (warningResult ("The category column \"" ++ c ++
                  "\" only has one unique value. A " ++ visualization_type ++
                  " may not be informative. A descriptive statistic might be better."))
              else none
        match catCheck with
        | some w => (s, .ok { result := w, artifact := none, newDataSet := none })
        | none =>
          (s, .ok
            { result := .obj [("status", .str "OK"),
                ("message", .str "Data is suitable for visualization.")]
              artifact := none, newDataSet := none })

/-- Pipe-escaped cell text of `markdownify` (null and undefined print as
the empty string). -/
def escapePipe (v : Value) : String :=
  if v == Value.null || v == Value.undef then ""
  else strReplaceAllChar (jsToString v) '|' [Char.ofNat 92, '|']

/-- `markdownify`: a Markdown table of the rows over the given columns. -/
def markdownify (data : List Row) (columns : List String) : String :=
  if data.length = 0 then "表示するデータがありません。"
  else
    let header := "| " ++ String.intercalate " | "
      (columns.map (fun c => escapePipe (Value.str c))) ++ " |"
    let separator := "| " ++ String.intercalate " | "
      (columns.map (fun _ => "---")) ++ " |"
    let rows := String.intercalate "\n" (data.map (fun row =>
      "| " ++ String.intercalate " | "
        (columns.map (fun c => escapePipe (rowGet row c))) ++ " |"))
    header ++ "\n" ++ separator ++ "\n" ++ rows

/-- `render_table`: generates a Markdown string for the report summary and
produces no artifact. -/
def renderTable (s : ExecState) (dataset_name title : String) :
    ExecState × Except String ExecOut :=
  match getDataset s dataset_name with
  | .error e => (s, .error e)
  | .ok dataset =>
    let markdownString := markdownify dataset.data dataset.stats.columnNames
    let fullMarkdown := "### " ++ title ++ "\n\n" ++ markdownString
    (s, .ok
      { result := .obj
          [("message", .str ("Markdown for table \"" ++ title ++
            "\" has been generated. This should be embedded in the report summary.")),
           ("markdown_table", .str fullMarkdown)]
        artifact := none
        newDataSet := none })

/-- Prefix a chart title with its bracketed type tag unless the given title
already starts with the tag. -/
def prefixedTitle (tag title : String) : String :=
  if jsStartsWith title tag then title else tag ++ " " ++ title

/-- `render_bar_chart`. -/
def renderBarChart (s : ExecState)
    (dataset_name category_column value_column title : String) :
    ExecState × Except String ExecOut :=
  match getDataset s dataset_name with
  | .error e => (s, .error e)
  | .ok dataset =>
    let t := prefixedTitle "[bar_chart]" title
    (s, .ok
      { result := .obj
          [("message", .str ("Bar chart \"" ++ t ++ "\" created.")),
           ("data_preview", Json.ofRows (dataset.data.take 5))]
        artifact := some (.barChart t dataset.data category_column value_column)
        newDataSet := none })

/-- `render_pie_chart`. -/
def renderPieChart (s : ExecState)
    (dataset_name category_column value_column title : String) :
    ExecState × Except String ExecOut :=
  match getDataset s dataset_name with
  | .error e => (s, .error e)
  | .ok dataset =>
    let t := prefixedTitle "[pie_chart]" title
    (s, .ok
      { result := .obj
          [("message", .str ("Pie chart \"" ++ t ++ "\" created.")),
           ("data_preview", Json.ofRows (dataset.data.take 5))]
        artifact := some (.pieChart t dataset.data category_column value_column)
        newDataSet := none })

/-- `render_line_chart`. -/
def renderLineChart (s : ExecState)
    (dataset_name x_column : String) (y_columns : List String) (title : String) :
    ExecState × Except String ExecOut :=
  match getDataset s dataset_name with
  | .error e => (s, .error e)
  | .ok dataset =>
    let t := prefixedTitle "[line_chart]" title
    (s, .ok
      { result := .obj
          [("message", .str ("Line chart \"" ++ t ++ "\" created.")),
           ("data_preview", Json.ofRows (dataset.data.take 5))]
        artifact := some (.lineChart t dataset.data x_column y_columns)
        newDataSet := none })

/-- `render_world_map`. -/
def renderWorldMap (s : ExecState)
    (dataset_name location_column value_column title : String) :
    ExecState × Except String ExecOut :=
  match getDataset s dataset_name with
  | .error e => (s, .error e)
  | .ok dataset =>
    let t := prefixedTitle "[world_map]" title
    (s, .ok
      { result := .obj
          [("message", .str ("World map \"" ++ t ++ "\" created.")),
           ("data_preview", Json.ofRows (dataset.data.take 5))]
        artifact := some (.worldMap t dataset.data location_column value_column)
        newDataSet := none })

/-- `render_scatter_plot`. -/
def renderScatterPlot (s : ExecState)
    (dataset_name x_column y_column title : String) :
    ExecState × Except String ExecOut :=
  match getDataset s dataset_name with
  | .error e => (s, .error e)
  | .ok dataset =>
    let t := prefixedTitle "[scatter_plot]" title
    (s, .ok
      { result := .obj
          [("message", .str ("Scatter plot \"" ++ t ++ "\" created.")),
           ("data_preview", Json.ofRows (dataset.data.take 5))]
        artifact := some (.scatterPlot t dataset.data x_column y_column)
        newDataSet := none })

/-- `render_waterfall_chart`. -/
def renderWaterfallChart (s : ExecState)
    (dataset_name category_column value_column title : String) :
    ExecState × Except String ExecOut :=
  match getDataset s dataset_name with
  | .error e => (s, .error e)
  | .ok dataset =>
    let t := prefixedTitle "[waterfall_chart]" title
    (s, .ok
      { result := .obj
          [("message", .str ("Waterfall chart \"" ++ t ++ "\" created.")),
           ("data_preview", Json.ofRows (dataset.data.take 5))]
        artifact := some (.waterfallChart t dataset.data category_column value_column)
        newDataSet := none })

/-- The `match[1]` capture of `title.match(/\[.*?\]\s*(.*)/)`: the text
after the first balanced `[...]` tag and any following whitespace, up to
a line terminator; `none` when the pattern does not match at all. -/
def stripTagCaptureList : List Char → Option (List Char)
  | [] => none
  | '[' :: rest =>
    if rest.contains ']' then
      let afterBracket := (rest.dropWhile (fun c => !(c = ']'))).drop 1
      some ((afterBracket.dropWhile jsWhitespace).takeWhile
        (fun c => !(c = Char.ofNat 10) && !(c = Char.ofNat 13)))
    else stripTagCaptureList rest
  | _ :: rest => stripTagCaptureList rest

/-- String-level wrapper for `stripTagCaptureList`. -/
def stripTagCapture (t : String) : Option String :=
  (stripTagCaptureList t.data).map String.mk

/-- The predicate `generate_report` uses to resolve one requested title
against one registered artifact: exact match of the trimmed titles first,
then the tag-stripping fallback (whose capture must be truthy). -/
def reportMatchPred (reqTitle : String) (a : Artifact) : Bool :=
  let t := jsTrim a.title
  if t = reqTitle then true
  else
    match stripTagCapture t with
    | some cap => !(cap = "") && jsTrim cap = reqTitle
    | none => false

/-- Resolve one requested artifact title: an empty (trimmed) request
resolves to nothing; otherwise the registry is searched most recent
first. -/
def resolveTitle (arts : List Artifact) (requestedTitle : String) :
    Option Artifact :=
  let reqTitle := jsTrim requestedTitle
  if reqTitle = "" then none
  else (arts.reverse).find? (reportMatchPred reqTitle)

/-- De-duplicate resolved artifacts by final title, keeping the first
occurrence (the `findIndex` filter of the source keeps element `i` exactly
when no earlier element carries the same title). -/
def dedupByTitleAux (seen : List String) : List Artifact → List Artifact
  | [] => []
  | a :: rest =>
    if seen.contains a.title then dedupByTitleAux seen rest
    else a :: dedupByTitleAux (seen ++ [a.title]) rest

/-- De-duplication by title over the whole resolved list. -/
def dedupByTitle (xs : List Artifact) : List Artifact := dedupByTitleAux [] xs

/-- `generate_report`: resolve the requested titles, de-duplicate, assemble
the report artifact and attach the (externally rendered) preview image when
one is produced. -/
def generateReport (s : ExecState) (title summary : String)
    (artifact_titles : List String) : ExecState × Except String ExecOut :=
  let foundArtifacts := artifact_titles.filterMap (resolveTitle s.artifacts)
  let uniqueOrderedArtifacts := dedupByTitle foundArtifacts
  let img := s.renderImageResult
  let reportArtifact : Artifact :=
    .report title summary uniqueOrderedArtifacts (if img = "" then none else some img)
  (s, .ok
    { result := .obj
        [("message", .str ("Report \"" ++ title ++ "\" has been generated."))]
      artifact := some reportArtifact
      newDataSet := none })

/-! The tool dispatcher. -/

/-- A structured tool call as the dispatcher receives it.  `unknownTool`
covers every name outside the `switch`. -/
inductive ToolCall where
  | get_dataset_schema (dataset_name : String)
  | filter_data (dataset_name column operator : String) (value : Value)
  | aggregate_data (dataset_name : String) (group_by_columns : List String)
      (aggregation_column aggregation_function : String)
  | add_column (dataset_name new_column_name expression : String)
  | get_descriptive_stats (dataset_name column : String)
  | join_datasets (left_dataset_name right_dataset_name left_on_column
      right_on_column join_type : String)
  | union_datasets (dataset_names : List String)
  | forecast_time_series (dataset_name date_column value_column : String)
      (forecast_periods : Nat) (frequency : String)
  | calculate_correlated_forex_scenario (base_currency_pair : String)
      (scenario_rate : ℚ) (periods : Option Nat)
  | verify_visualization_data (dataset_name visualization_type : String)
      (columns : VizColumns)
  | render_table (dataset_name title : String)
  | render_bar_chart (dataset_name category_column value_column title : String)
  | render_pie_chart (dataset_name category_column value_column title : String)
  | render_line_chart (dataset_name x_column : String) (y_columns : List String)
      (title : String)
  | render_world_map (dataset_name location_column value_column title : String)
  | render_scatter_plot (dataset_name x_column y_column title : String)
  | render_waterfall_chart (dataset_name category_column value_column title : String)
  | generate_report (title summary : String) (artifact_titles : List String)
  | unknownTool (name : String)

/-- Dispatch of `execute` to the tool implementations (the `switch`). -/
def dispatch (s : ExecState) : ToolCall → ExecState × Except String ExecOut
  | .get_dataset_schema n => getDatasetSchema s n
  | .filter_data n c op v => filterData s n c op v
  | .aggregate_data n g c f => aggregateData s n g c f
  | .add_column n c e => addColumn s n c e
  | .get_descriptive_stats n c => getDescriptiveStats s n c
  | .join_datasets l r lc rc jt => joinDatasets s l r lc rc jt
  | .union_datasets ns => unionDatasets s ns
  | .forecast_time_series n dc vc p f => forecastTimeSeries s n dc vc p f
  | .calculate_correlated_forex_scenario b r p =>
      calculateCorrelatedForexScenario s b r p
  | .verify_visualization_data n t c => verifyVisualizationData s n t c
  | .render_table n t => renderTable s n t
  | .render_bar_chart n c v t => renderBarChart s n c v t
  | .render_pie_chart n c v t => renderPieChart s n c v t
  | .render_line_chart n x ys t => renderLineChart s n x ys t
  | .render_world_map n l v t => renderWorldMap s n l v t
  | .render_scatter_plot n x y t => renderScatterPlot s n x y t
  | .render_waterfall_chart n c v t => renderWaterfallChart s n c v t
  | .generate_report t sm ts => generateReport s t sm ts
  | .unknownTool name => (s, .error ("Tool \"" ++ name ++ "\" not found."))

/-- `execute`: dispatch the call; on success, register a produced artifact
under a collision-free title and hand the renamed artifact back; errors
re-throw to the orchestration loop.  (Every `Artifact` variant is in the
qualifying-type list of the source, so registration happens exactly when an
artifact was produced.) -/
def execute (s : ExecState) (toolCall : ToolCall) :
    ExecState × Except String ExecOut :=
  match dispatch s toolCall with
  | (s1, .error e) => (s1, .error e)
  | (s1, .ok out) =>
    match out.artifact with
    | none => (s1, .ok out)
    | some a =>
      let reg := registerArtifact s1.artifacts a
      ({ s1 with artifacts := reg.1 }, .ok { out with artifact := some reg.2 })

/-! The orchestration loop (`runChat`, lines 582-776 of geminiService).
The function-calling model, the tool executor and the reviewer are the
loop's environment; a model turn is a `ModelResponse`, and the outcome of
executing one tool call (success, with or without an artifact, or a thrown
error message) is carried on the call itself, since the loop only ever
branches on that outcome.  The plan bookkeeping (`fullPlan`, step records,
callbacks) does not influence control flow and is not modelled. -/

/-- `translateErrorMessage`: the fixed phrase table mapping a raw tool
error to the user-facing message. -/
def translateErrorMessage (errorMessage : String) : String :=
  if strIncludes errorMessage "Dataset" && strIncludes errorMessage "not found" then
    "分析に必要なデータが見つかりませんでした。データが正しく読み込まれているか確認してください。"
  else if strIncludes errorMessage "Column" && strIncludes errorMessage "does not exist" then
    "データ内に指定された項目（列）が見つかりませんでした。別の項目名で試すか、データの内容を確認してください。"
  else if strIncludes errorMessage "No numerical data found" then
    "計算に使用しようとした項目に、数値データが含まれていませんでした。集計方法や対象の項目を見直してください。"
  else if strIncludes errorMessage "filter" && strIncludes errorMessage "resulted in 0 rows" then
    "指定された条件でデータを絞り込んだ結果、該当するデータが1件もありませんでした。条件を変更して再度お試しください。"
  else if strIncludes errorMessage "Invalid expression format" then
    "新しい項目を追加するための計算式に誤りがありました。"
  else if strIncludes errorMessage "Unsupported aggregation function" then
    "サポートされていない集計方法が指定されました。（例：合計、平均、件数など）"
  else if strIncludes errorMessage "requires at least two data points" then
    "時系列予測を行うには、少なくとも2つ以上のデータポイントが必要です。"
  else "分析中に予期せぬエラーが発生しました。"

/-- One tool call of a model turn, together with the outcome the dispatcher
produces for it: `none` for success, `some msg` for a thrown error;
`producesArtifact` records whether the successful call returned an
artifact. -/
structure ModelCall where
  name : String
  errorMsg : Option String
  producesArtifact : Bool

/-- One model turn: optional text and the tool calls. -/
structure ModelResponse where
  text : Option String
  calls : List ModelCall

/-- What `chat.sendMessage` is given each turn: an instruction string or
the structured tool results of the previous turn (whose content the loop
never inspects). -/
inductive LoopMsg where
  | text : String → LoopMsg
  | toolResults : LoopMsg
deriving DecidableEq, Repr

/-- The reviewer's verdict (`decision === 'revise'` together with the
optional feedback and replacement text). -/
structure ReviewOutcome where
  revise : Bool
  feedback : Option String
  revisedText : Option String

/-- The loop's environment: the artifact-list suffix composed before the
loop, and the reviewer oracle indexed by review invocation. -/
structure LoopCtx where
  artifactListMessage : String
  review : Nat → ReviewOutcome

/-- The mutable loop variables of `runChat`. -/
structure LoopState where
  currentMessage : LoopMsg
  emptyResponseCount : Nat
  invalidResponseCount : Nat
  consecutiveErrors : Nat
  artifactFlag : Bool
  reviewCount : Nat
deriving DecidableEq, Repr

/-- How a run ended (which `onFinalAnswer` site fired). -/
inductive ExitKind where
  | userInputRequired
  | reviewApproved
  | invalidLimit
  | finalText
  | errorTerminal
  | emptyAbort
  | turnLimit
deriving DecidableEq, Repr

/-- The observable outcome of a run: the final answer message, the number
of model turns consumed, the exit site, and the messages sent to the
model. -/
structure RunResult where
  finalAnswer : String
  turnsUsed : Nat
  exitKind : ExitKind
  sent : List LoopMsg
deriving DecidableEq, Repr

/-- The turn ceiling `MAX_TURNS`. -/
def MAX_TURNS : Nat := 200

/-- The invalid-response ceiling `MAX_INVALID_RESPONSES`. -/
def MAX_INVALID_RESPONSES : Nat := 2

/-- The consecutive-error threshold `MAX_CONSECUTIVE_ERRORS`. -/
def MAX_CONSECUTIVE_ERRORS : Nat := 2

/-- The nudge after a single empty response. -/
def nudgeEmptyMsg : String :=
  "You have not provided a response or a tool call. Please review the work you have done in the previous steps and provide a final answer summarizing your findings to the user in Markdown format."

/-- The terminal message after two consecutive empty responses. -/
def noResponseMsg : String := "AIからの応答が空でした。分析を終了します。"

/-- The terminal message at the turn ceiling. -/
def stepLimitMsg : String := "分析が最大ステップ数に達したため停止しました。"

/-- The terminal message at the invalid-response ceiling. -/
def invalidStopMsg : String := "AIが不適切な応答を繰り返したため、分析を停止しました。"

/-- The nudge after a short or generic free-text response. -/
def nudgeInvalidMsg : String :=
  "That was not a valid response. Your response was too short and not a valid final answer. According to your instructions, you must either call a tool, ask a clarifying question to the user, or provide a comprehensive final summary of the analysis. Please proceed with the next step of the plan by calling the next appropriate tool."

/-- The suffix appended to the translated error in the error-terminal
message. -/
def errorStopSuffix : String :=
  "\n\n繰り返しエラーが発生したため分析を停止しました。お手数ですが、別の質問や分析方法をお試しください。"

/-- The self-correction instruction, naming the failed tool and its
error. -/
def selfCorrectionPrompt (toolName errorMessage artifactListMessage : String) :
    String :=
  "The tool call " ++ sq ++ toolName ++ sq ++ " failed with the error: \"" ++
  errorMessage ++
  "\". Do not apologize. Analyze the error and determine the best immediate next step to fix it. This could be re-running the tool with corrected parameters or using a different tool. State your correction concisely and then call the corrected tool. Do not generate a full new plan. Just proceed with the single next corrective step." ++
  artifactListMessage

/-- The revision instruction quoting the reviewer's feedback verbatim. -/
def revisionPrompt (feedback artifactListMessage : String) : String :=
  "Your previous work was reviewed and requires correction. The previous steps of your plan are complete, but the final result was incorrect. Based on the following feedback, generate ONLY the additional steps needed to address the feedback and produce the correct final result. Do not repeat steps that have already been successfully completed. Review Feedback: \"" ++
  feedback ++ "\"" ++ artifactListMessage

/-- JavaScript falsiness of `result.text` (absent or empty). -/
def isFalsyText : Option String → Bool
  | none => true
  | some t => t = ""

/-- The generic-acknowledgement prefixes of the short-response check. -/
def startsGeneric (t : String) : Bool :=
  ["承知しました", "わかりました", "処理を続けます", "はい", "了解", "続行します"].any
    (fun p => jsStartsWith t p)

/-- Outcome of the sequential execution of one turn's tool calls. -/
inductive CallsOutcome where
  | terminalError : String → CallsOutcome
  | selfCorrect : String → Nat → Bool → CallsOutcome
  | finished : Nat → Bool → CallsOutcome
deriving DecidableEq, Repr

/-- The inner `for` over a turn's tool calls: success resets the
consecutive-error counter (recording a produced artifact); failure
increments it and either stops the run at the threshold or breaks out with
a self-correction prompt, skipping the remaining calls of the turn. -/
def processCalls (artifactListMessage : String) :
    List ModelCall → Nat → Bool → CallsOutcome
  | [], ce, flag => .finished ce flag
  | c :: rest, ce, flag =>
    match c.errorMsg with
    | none => processCalls artifactListMessage rest 0 (flag || c.producesArtifact)
    | some errorMessage =>
      if ce + 1 ≥ MAX_CONSECUTIVE_ERRORS then
        .terminalError (translateErrorMessage errorMessage ++ errorStopSuffix)
      else
        .selfCorrect (selfCorrectionPrompt c.name errorMessage artifactListMessage)
          (ce + 1) flag

/-- Result of processing one model turn: leave the loop with a final
answer, or continue with updated loop variables. -/
inductive StepResult where
  | exit : String → ExitKind → StepResult
  | continueWith : LoopState → StepResult
deriving DecidableEq, Repr

/-- The body of one iteration of the `for` loop of `runChat`, in source
order: the empty-response counter, the `[USER_INPUT_REQUIRED]` early
return, sequential tool execution with self-correction, then the free-text
branches (review when an artifact exists; otherwise the short-response
nudge or a substantive final answer). -/
def stepTurn (ctx : LoopCtx) (resp : ModelResponse) (st : LoopState) :
    StepResult :=
  if isFalsyText resp.text && resp.calls.length = 0 then
    let ec := st.emptyResponseCount + 1
    if ec > 1 then .exit noResponseMsg .emptyAbort
    else .continueWith
      { st with
        emptyResponseCount := ec
        currentMessage := .text nudgeEmptyMsg }
  else
    let st1 := { st with emptyResponseCount := 0 }
    if (match resp.text with
        | some t => strIncludes t "[USER_INPUT_REQUIRED]"
        | none => false) then
      .exit (jsTrim (resp.text.getD "")) .userInputRequired
    else if resp.calls.length ≠ 0 then
      let st2 := { st1 with invalidResponseCount := 0 }
      match processCalls ctx.artifactListMessage resp.calls st2.consecutiveErrors
          st2.artifactFlag with
      | .terminalError m => .exit m .errorTerminal
      | .selfCorrect prompt ce flag =>
        .continueWith { st2 with
          consecutiveErrors := ce
          artifactFlag := flag
          currentMessage := .text prompt }
      | .finished ce flag =>
        .continueWith { st2 with
          consecutiveErrors := ce
          artifactFlag := flag
          currentMessage := .toolResults }
    else
      let text := resp.text.getD ""
      if st1.artifactFlag then
        let rv := ctx.review st1.reviewCount
        if rv.revise && !isFalsyText rv.feedback then
          .continueWith { st1 with
            invalidResponseCount := 0
            reviewCount := st1.reviewCount + 1
            currentMessage := .text (revisionPrompt (rv.feedback.getD "")
              ctx.artifactListMessage) }
        else
          .exit
            (match rv.revisedText with
             | some rt => if rt = "" then text else rt
             | none => text)
            .reviewApproved
      else
        let trimmed := jsTrim text
        if trimmed.length < 40 || startsGeneric trimmed then
          let ic := st1.invalidResponseCount + 1
          if ic ≥ MAX_INVALID_RESPONSES then .exit invalidStopMsg .invalidLimit
          else .continueWith { st1 with
            invalidResponseCount := ic
            currentMessage := .text nudgeInvalidMsg }
        else .exit text .finalText

/-- The `for` loop of `runChat`, by remaining fuel: each iteration sends
`currentMessage`, reads the environment's response for the current turn and
processes it; exhausted fuel is the post-loop `turn >= MAX_TURNS` branch
with the fixed step-limit message. -/
def runLoop (ctx : LoopCtx) (env : Nat → ModelResponse) :
    Nat → LoopState → Nat → RunResult
  | _, _, 0 => RunResult.mk stepLimitMsg 0 .turnLimit []
  | turn, st, fuel + 1 =>
    match stepTurn ctx (env turn) st with
    | .exit answer kind => RunResult.mk answer 1 kind [st.currentMessage]
    | .continueWith st' =>
      let r := runLoop ctx env (turn + 1) st' fuel
      RunResult.mk r.finalAnswer (r.turnsUsed + 1) r.exitKind
        (st.currentMessage :: r.sent)

/-- The loop variables as initialized just before the loop. -/
def initLoopState (firstMessage : String) : LoopState :=
  LoopState.mk (.text firstMessage) 0 0 0 false 0

/-- One invocation of the orchestration loop from its initial planner
instruction. -/
def runChatLoop (ctx : LoopCtx) (env : Nat → ModelResponse)
    (firstMessage : String) : RunResult :=
  runLoop ctx env 0 (initLoopState firstMessage) MAX_TURNS

/-! Specification-side definitions: the quantities the spec's properties
talk about, written directly from the spec's words so the theorems can
relate them to the code's behavior. -/

/-- Number of matched left-right row pairs of a join: for each left row,
the number of right rows whose join key equals its own. -/
def matchedPairCount (leftRows rightRows : List Row)
    (left_on_column right_on_column : String) : Nat :=
  (leftRows.map (fun l =>
    (rightRows.filter (fun r =>
      rowGet r right_on_column == rowGet l left_on_column)).length)).sum

/-- Number of left rows with no key match on the right. -/
def unmatchedLeftCount (leftRows rightRows : List Row)
    (left_on_column right_on_column : String) : Nat :=
  (leftRows.filter (fun l =>
    !(rightRows.any (fun r =>
      rowGet r right_on_column == rowGet l left_on_column)))).length

/-- Number of right rows with no key match on the left. -/
def unmatchedRightCount (leftRows rightRows : List Row)
    (left_on_column right_on_column : String) : Nat :=
  (rightRows.filter (fun r =>
    !(leftRows.any (fun l =>
      rowGet l left_on_column == rowGet r right_on_column)))).length

/-- The output column a non-key right column lands in: suffixed `_right`
exactly when it conflicts with a left column. -/
def rightColName (leftCols : List String) (c : String) : String :=
  if c ∈ leftCols then c ++ "_right" else c

/-! Concrete fixtures used by the witnesses and counterexamples. -/

/-- A small base dataset. -/
def demoSales : DataSet :=
  DataSet.mk "sales"
    [[("region", .str "EU"), ("amount", .num (.fin 10))],
     [("region", .str "US"), ("amount", .num (.fin 25))],
     [("region", .str "JP"), ("amount", .null)]]
    (DataSetStats.mk 3 2 ["region", "amount"])

/-- A fresh executor state over `demoSales`. -/
def demoState : ExecState :=
  ExecState.mk [("sales", demoSales)] [] 0 []
    (fun _ => .error "engine unavailable") (fun _ => 1 / 2) 0 ""

/-- An executor state whose registry holds one bar chart titled
`[bar_chart] Sales`. -/
def demoBarState : ExecState :=
  ExecState.mk [("sales", demoSales)] [] 0
    [Artifact.barChart "[bar_chart] Sales" [] "region" "amount"]
    (fun _ => .error "engine unavailable") (fun _ => 1 / 2) 0 ""

/-- A two-point time series `(2024-01-01, 10), (2024-01-02, 20)`. -/
def demoTs2 : DataSet :=
  DataSet.mk "ts"
    [[("d", .str "2024-01-01"), ("v", .num (.fin 10))],
     [("d", .str "2024-01-02"), ("v", .num (.fin 20))]]
    (DataSetStats.mk 2 2 ["d", "v"])

/-- An executor state over the two-point series. -/
def demoTs2State : ExecState :=
  ExecState.mk [("ts", demoTs2)] [] 0 []
    (fun _ => .error "engine unavailable") (fun _ => 1 / 2) 0 ""

/-- A one-point time series. -/
def demoTs1 : DataSet :=
  DataSet.mk "ts"
    [[("d", .str "2024-01-01"), ("v", .num (.fin 10))]]
    (DataSetStats.mk 1 2 ["d", "v"])

/-- An executor state over the one-point series. -/
def demoTs1State : ExecState :=
  ExecState.mk [("ts", demoTs1)] [] 0 []
    (fun _ => .error "engine unavailable") (fun _ => 1 / 2) 0 ""

/-- Two small joinable datasets for the join witnesses. -/
def demoLeftDs : DataSet :=
  DataSet.mk "l"
    [[("k", .num (.fin 1)), ("a", .str "x")],
     [("k", .num (.fin 2)), ("a", .str "y")]]
    (DataSetStats.mk 2 2 ["k", "a"])

/-- Right side of the join fixture: key 1 matches twice, key 3 never. -/
def demoRightDs : DataSet :=
  DataSet.mk "r"
    [[("k", .num (.fin 1)), ("b", .str "p")],
     [("k", .num (.fin 1)), ("b", .str "q")],
     [("k", .num (.fin 3)), ("b", .str "z")]]
    (DataSetStats.mk 3 2 ["k", "b"])

/-- Executor state over the join fixture. -/
def demoJoinState : ExecState :=
  ExecState.mk [("l", demoLeftDs), ("r", demoRightDs)] [] 0 []
    (fun _ => .error "engine unavailable") (fun _ => 1 / 2) 0 ""

/-- A loop environment context with no artifacts and a reviewer that
always approves unchanged. -/
def demoCtx : LoopCtx := LoopCtx.mk "" (fun _ => ReviewOutcome.mk false none none)

/-- The adversarial always-empty model. -/
def envAllEmpty : Nat → ModelResponse := fun _ => ModelResponse.mk none []

/-- A model that issues one successful tool call every turn, forever. -/
def envOneOkCall : Nat → ModelResponse :=
  fun _ => ModelResponse.mk none [ModelCall.mk "get_dataset_schema" none false]

/-- A model whose tool call fails every turn with a missing-dataset
error. -/
def envAlwaysFail : Nat → ModelResponse :=
  fun _ => ModelResponse.mk none
    [ModelCall.mk "filter_data" (some "Dataset \"sales\" not found.") false]

/-- A substantive final answer (long enough to pass the short-response
check). -/
def demoFinalText : String :=
  "ここまでの分析の結果、EU の売上が最大であることがわかりました。詳細は以下のとおりです。"

/-- A model that alternates a failing turn and a successful turn twice and
then delivers a substantive final answer. -/
def envFailOkAlternate : Nat → ModelResponse := fun n =>
  if n = 4 then ModelResponse.mk (some demoFinalText) []
  else if n % 2 = 0 then
    ModelResponse.mk none [ModelCall.mk "aggregate_data" (some "boom") false]
  else ModelResponse.mk none [ModelCall.mk "aggregate_data" none false]

/-! Theorems. -/

/-- The supported comparison operators of `filter_data`. -/
def supportedOperators : List String :=
  ["==", "!=", ">", "<", ">=", "<=", "contains"]

theorem filterPred_true_elim {column operator : String} {value : Value}
    {row : Row} (h : filterPred column operator value row = true) :
    isPresent (rowGet row column) = true ∧
      compareVals operator (rowGet row column) value = true := by
  unfold filterPred at h
  unfold isPresent
  by_cases hu : rowGet row column == Value.undef
  · simp [hu] at h
  · by_cases hn : rowGet row column == Value.null
    · simp [hn] at h
    · simp [hu, hn] at h ⊢
      exact h

/-- C5: for every input dataset and operator, `filter_data` succeeds and
produces a new dataset that is exactly the input filtered by the
comparison predicate — so its row count is at most the input's, every kept
row has a present (non-null) filter column satisfying the comparison, and a
zero-match result is not an error but carries a `warning` string alongside
a valid empty dataset. -/
theorem c5_filter_data_sound (s : ExecState)
    (dataset_name column operator : String) (value : Value) (ds : DataSet)
    (h : getDataset s dataset_name = .ok ds) :
    ∃ out, (filterData s dataset_name column operator value).2 = .ok out ∧
      ∃ nds, out.newDataSet = some nds ∧
        nds.data = ds.data.filter (filterPred column operator value) ∧
        nds.stats.rows = nds.data.length ∧
        nds.data.length ≤ ds.data.length ∧
        (∀ row ∈ nds.data, isPresent (rowGet row column) = true ∧
          compareVals operator (rowGet row column) value = true) ∧
        (nds.data.length = 0 →
          ∃ w, out.result.getField "warning" = some (.str w)) := by
  unfold filterData
  rw [h]
  simp only []
  by_cases hz : (ds.data.filter (filterPred column operator value)).length = 0
  · refine ⟨_, by rw [if_pos hz], ?_⟩
    refine ⟨_, rfl, rfl, rfl, List.length_filter_le _ _, ?_, ?_⟩
    · intro row hrow
      exact filterPred_true_elim (List.of_mem_filter hrow)
    · intro _
      exact ⟨_, rfl⟩
  · refine ⟨_, by rw [if_neg hz], ?_⟩
    refine ⟨_, rfl, rfl, rfl, List.length_filter_le _ _, ?_, ?_⟩
    · intro row hrow
      exact filterPred_true_elim (List.of_mem_filter hrow)
    · intro h0
      exact absurd h0 hz

/-- Witness for C5 at a concrete state: filtering `sales` by
`amount > 15`. -/
theorem c5_filter_data_sound_witness :
    ∃ out,
      (filterData demoState "sales" "amount" ">" (.num (.fin 15))).2 = .ok out ∧
      ∃ nds, out.newDataSet = some nds ∧
        nds.data = demoSales.data.filter (filterPred "amount" ">" (.num (.fin 15))) ∧
        nds.stats.rows = nds.data.length ∧
        nds.data.length ≤ demoSales.data.length ∧
        (∀ row ∈ nds.data, isPresent (rowGet row "amount") = true ∧
          compareVals ">" (rowGet row "amount") (.num (.fin 15)) = true) ∧
        (nds.data.length = 0 →
          ∃ w, out.result.getField "warning" = some (.str w)) :=
  c5_filter_data_sound demoState "sales" "amount" ">" (.num (.fin 15))
    demoSales rfl

/-- C10: any operator outside the supported set makes the comparison false
on every row, so `filter_data` does not throw: it saves a valid empty
dataset under the next sequential step name and returns the zero-match
warning. -/
theorem c10_filter_data_unknown_operator (s : ExecState)
    (dataset_name column operator : String) (value : Value) (ds : DataSet)
    (h : getDataset s dataset_name = .ok ds)
    (hop : operator ∉ supportedOperators) :
    (∀ rv v, compareVals operator rv v = false) ∧
    ∃ out, (filterData s dataset_name column operator value).2 = .ok out ∧
      out.newDataSet = some
        (DataSet.mk ("step_" ++ natToString (s.stepCounter + 1) ++ "_result")
          [] (DataSetStats.mk 0 0 [])) ∧
      (∃ w, out.result.getField "warning" = some (.str w)) ∧
      (filterData s dataset_name column operator value).1 = (saveResult s []).1 := by
  simp only [supportedOperators, List.mem_cons, List.not_mem_nil, or_false,
    not_or] at hop
  obtain ⟨h1, h2, h3, h4, h5, h6, h7⟩ := hop
  have hcmp : ∀ rv v, compareVals operator rv v = false := by
    intro rv v
    unfold compareVals
    rw [if_neg h1, if_neg h2, if_neg h3, if_neg h4, if_neg h5, if_neg h6,
      if_neg h7]
  have hpred : ∀ row, filterPred column operator value row = false := by
    intro row
    unfold filterPred
    by_cases hu : rowGet row column == Value.undef
    · simp [hu]
    · by_cases hn : rowGet row column == Value.null
      · simp [hu, hn]
      · simp [hu, hn, hcmp]
  have hfil : ds.data.filter (filterPred column operator value) = [] := by
    simp [List.filter_eq_nil_iff, hpred]
  refine ⟨hcmp, ?_⟩
  unfold filterData
  rw [h]
  simp only [hfil]
  exact ⟨_, rfl, rfl, ⟨_, rfl⟩, rfl⟩

/-- Witness for C10 with the unsupported operator `"xyz"`. -/
theorem c10_filter_data_unknown_operator_witness :
    (∀ rv v, compareVals "xyz" rv v = false) ∧
    ∃ out, (filterData demoState "sales" "amount" "xyz" (.num (.fin 1))).2 = .ok out ∧
      out.newDataSet = some
        (DataSet.mk ("step_" ++ natToString (demoState.stepCounter + 1) ++ "_result")
          [] (DataSetStats.mk 0 0 [])) ∧
      (∃ w, out.result.getField "warning" = some (.str w)) ∧
      (filterData demoState "sales" "amount" "xyz" (.num (.fin 1))).1 =
        (saveResult demoState []).1 :=
  c10_filter_data_unknown_operator demoState "sales" "amount" "xyz"
    (.num (.fin 1)) demoSales rfl (by decide)

/-- C8 counterexample: `render_table` is not an artifact constructor — at a
concrete input, `execute` succeeds but returns no artifact, and the
generated Markdown title carries no `[table]` tag, contradicting the claim
that every render_* tool produces a tag-prefixed artifact. -/
theorem c8_render_table_counterexample :
    ∃ out, (execute demoState (.render_table "sales" "Sales")).2 = .ok out ∧
      out.artifact = none ∧
      ∃ md, out.result.getField "markdown_table" = some (.str md) ∧
        jsStartsWith md "### Sales" = true ∧
        jsStartsWith md "[table]" = false := by
  refine ⟨_, rfl, rfl, _, rfl, ?_, ?_⟩ <;> decide

/-- C8 amended: each of the six chart render tools (`render_bar_chart`,
`render_pie_chart`, `render_line_chart`, `render_world_map`,
`render_scatter_plot`, `render_waterfall_chart`) is a pure artifact
constructor that prefixes the title with its bracketed type tag unless the
title already starts with that tag, binding the requested column names into
the artifact payload; `render_table` instead returns a Markdown rendering
of the dataset and produces no artifact. -/
theorem c8_render_tools_amended (s : ExecState) :
    (∀ tag t, (jsStartsWith t tag = true → prefixedTitle tag t = t) ∧
      (jsStartsWith t tag = false → prefixedTitle tag t = tag ++ " " ++ t)) ∧
    (∀ n c v t ds, getDataset s n = .ok ds →
      ∃ out, (renderBarChart s n c v t).2 = .ok out ∧
        out.artifact = some (.barChart (prefixedTitle "[bar_chart]" t) ds.data c v)) ∧
    (∀ n c v t ds, getDataset s n = .ok ds →
      ∃ out, (renderPieChart s n c v t).2 = .ok out ∧
        out.artifact = some (.pieChart (prefixedTitle "[pie_chart]" t) ds.data c v)) ∧
    (∀ n x ys t ds, getDataset s n = .ok ds →
      ∃ out, (renderLineChart s n x ys t).2 = .ok out ∧
        out.artifact = some (.lineChart (prefixedTitle "[line_chart]" t) ds.data x ys)) ∧
    (∀ n l v t ds, getDataset s n = .ok ds →
      ∃ out, (renderWorldMap s n l v t).2 = .ok out ∧
        out.artifact = some (.worldMap (prefixedTitle "[world_map]" t) ds.data l v)) ∧
    (∀ n x y t ds, getDataset s n = .ok ds →
      ∃ out, (renderScatterPlot s n x y t).2 = .ok out ∧
        out.artifact = some (.scatterPlot (prefixedTitle "[scatter_plot]" t) ds.data x y)) ∧
    (∀ n c v t ds, getDataset s n = .ok ds →
      ∃ out, (renderWaterfallChart s n c v t).2 = .ok out ∧
        out.artifact = some
          (.waterfallChart (prefixedTitle "[waterfall_chart]" t) ds.data c v)) ∧
    (∀ n t ds, getDataset s n = .ok ds →
      ∃ out, (renderTable s n t).2 = .ok out ∧ out.artifact = none ∧
        out.result.getField "markdown_table" =
          some (.str ("### " ++ t ++ "\n\n" ++
            markdownify ds.data ds.stats.columnNames))) := by
  refine ⟨?_, ?_, ?_, ?_, ?_, ?_, ?_, ?_⟩
  · intro tag t
    constructor
    · intro h
      unfold prefixedTitle
      rw [if_pos h]
    · intro h
      unfold prefixedTitle
      rw [if_neg (by rw [h]; exact Bool.false_ne_true)]
  · intro n c v t ds h
    unfold renderBarChart
    rw [h]
    exact ⟨_, rfl, rfl⟩
  · intro n c v t ds h
    unfold renderPieChart
    rw [h]
    exact ⟨_, rfl, rfl⟩
  · intro n x ys t ds h
    unfold renderLineChart
    rw [h]
    exact ⟨_, rfl, rfl⟩
  · intro n l v t ds h
    unfold renderWorldMap
    rw [h]
    exact ⟨_, rfl, rfl⟩
  · intro n x y t ds h
    unfold renderScatterPlot
    rw [h]
    exact ⟨_, rfl, rfl⟩
  · intro n c v t ds h
    unfold renderWaterfallChart
    rw [h]
    exact ⟨_, rfl, rfl⟩
  · intro n t ds h
    unfold renderTable
    rw [h]
    exact ⟨_, rfl, rfl, rfl⟩

/-- Witness for the amended C8, at a concrete dataset and titles with and
without a pre-existing tag. -/
theorem c8_render_tools_amended_witness :
    (prefixedTitle "[bar_chart]" "Revenue" = "[bar_chart] Revenue") ∧
    (prefixedTitle "[bar_chart]" "[bar_chart] Revenue" = "[bar_chart] Revenue") ∧
    (∃ out, (renderBarChart demoState "sales" "region" "amount" "Revenue").2 = .ok out ∧
      out.artifact = some (.barChart (prefixedTitle "[bar_chart]" "Revenue")
        demoSales.data "region" "amount")) ∧
    (∃ out, (renderTable demoState "sales" "Sales").2 = .ok out ∧
      out.artifact = none ∧
      out.result.getField "markdown_table" =
        some (.str ("### " ++ "Sales" ++ "\n\n" ++
          markdownify demoSales.data demoSales.stats.columnNames))) := by
  refine ⟨?_, ?_, ?_, ?_⟩
  · exact ((c8_render_tools_amended demoState).1 "[bar_chart]" "Revenue").2 (by decide)
  · exact ((c8_render_tools_amended demoState).1 "[bar_chart]"
      "[bar_chart] Revenue").1 (by decide)
  · exact (c8_render_tools_amended demoState).2.1 "sales" "region" "amount"
      "Revenue" demoSales rfl
  · exact (c8_render_tools_amended demoState).2.2.2.2.2.2.2 "sales" "Sales"
      demoSales rfl

/-! Machinery for C3: the rename loop of `execute` always finds a fresh
title within its fuel, because the candidate titles are pairwise distinct
and a list of length `n` cannot contain `n + 1` distinct strings. -/

theorem digitChar_inj10 : ∀ a < 10, ∀ b < 10,
    Nat.digitChar a = Nat.digitChar b → a = b := by decide

theorem map_digitChar_inj : ∀ xs ys : List Nat, (∀ d ∈ xs, d < 10) →
    (∀ d ∈ ys, d < 10) → xs.map Nat.digitChar = ys.map Nat.digitChar →
    xs = ys := by
  intro xs
  induction xs with
  | nil =>
    intro ys _ _ h
    cases ys with
    | nil => rfl
    | cons y ys => simp at h
  | cons x xs ih =>
    intro ys hx hy h
    cases ys with
    | nil => simp at h
    | cons y ys =>
      simp only [List.map_cons, List.cons.injEq] at h
      have hxy : x = y :=
        digitChar_inj10 x (hx x (by simp)) y (hy y (by simp)) h.1
      have := ih ys (fun d hd => hx d (by simp [hd]))
        (fun d hd => hy d (by simp [hd])) h.2
      rw [hxy, this]

theorem natToStringAux_eq_digits :
    ∀ (fuel n : Nat), n ≤ fuel →
      natToStringAux fuel n = ((Nat.digits 10 n).map Nat.digitChar).reverse := by
  intro fuel
  induction fuel with
  | zero =>
    intro n hn
    have : n = 0 := Nat.le_zero.mp hn
    rw [this]
    simp [natToStringAux]
  | succ fuel ih =>
    intro n hn
    by_cases h0 : n = 0
    · rw [h0]
      simp [natToStringAux]
    · have hdiv : n / 10 ≤ fuel := by
        have h1 : n / 10 < n := Nat.div_lt_self (Nat.pos_of_ne_zero h0)
          (by norm_num)
        omega
      have hdig : Nat.digits 10 n = n % 10 :: Nat.digits 10 (n / 10) :=
        Nat.digits_def' (by norm_num) (Nat.pos_of_ne_zero h0)
      unfold natToStringAux
      rw [if_neg h0, ih _ hdiv, hdig]
      simp

theorem digits_rev_eq_zero {n : Nat} (hn : n ≠ 0)
    (h : ((Nat.digits 10 n).map Nat.digitChar).reverse = ['0']) : False := by
  have hrev : (Nat.digits 10 n).reverse = [0] := by
    apply map_digitChar_inj
    · intro d hd
      exact Nat.digits_lt_base (by norm_num) (List.mem_reverse.mp hd)
    · intro d hd
      simp at hd
      omega
    · rw [List.map_reverse, h]
      rfl
  have hdig : Nat.digits 10 n = [0] := by
    have := congrArg List.reverse hrev
    simpa using this
  have hval := Nat.ofDigits_digits 10 n
  rw [hdig] at hval
  simp [Nat.ofDigits] at hval
  exact hn hval.symm

theorem natToString_inj : Function.Injective natToString := by
  intro m n h
  unfold natToString at h
  by_cases hm : m = 0 <;> by_cases hn : n = 0
  · rw [hm, hn]
  · rw [if_pos hm, if_neg hn] at h
    have hc : natToStringAux (n + 1) n = ['0'] := (congrArg String.data h).symm
    rw [natToStringAux_eq_digits _ _ (by omega)] at hc
    exact absurd hc (fun hc => digits_rev_eq_zero hn hc)
  · rw [if_neg hm, if_pos hn] at h
    have hc : natToStringAux (m + 1) m = ['0'] := congrArg String.data h
    rw [natToStringAux_eq_digits _ _ (by omega)] at hc
    exact absurd hc (fun hc => digits_rev_eq_zero hm hc)
  · rw [if_neg hm, if_neg hn] at h
    have hdata : natToStringAux (m + 1) m = natToStringAux (n + 1) n :=
      congrArg String.data h
    rw [natToStringAux_eq_digits _ _ (by omega),
      natToStringAux_eq_digits _ _ (by omega)] at hdata
    have hrev := map_digitChar_inj _ _
      (fun d hd => Nat.digits_lt_base (by norm_num) (List.mem_reverse.mp hd))
      (fun d hd => Nat.digits_lt_base (by norm_num) (List.mem_reverse.mp hd))
      (by simp only [List.map_reverse]; exact hdata)
    have hdig : Nat.digits 10 m = Nat.digits 10 n := by
      have := congrArg List.reverse hrev
      simpa using this
    have h1 := Nat.ofDigits_digits 10 m
    rw [← h1, hdig, Nat.ofDigits_digits]

theorem natToString_data_ne_nil (n : Nat) : (natToString n).data ≠ [] := by
  unfold natToString
  by_cases h : n = 0
  · rw [if_pos h]
    decide
  · rw [if_neg h]
    intro hc
    have hc2 : natToStringAux (n + 1) n = [] := hc
    rw [natToStringAux_eq_digits _ _ (by omega)] at hc2
    have hd : List.map Nat.digitChar (Nat.digits 10 n) = [] := by
      have := congrArg List.reverse hc2
      simpa using this
    exact h (Nat.digits_eq_nil_iff_eq_zero.mp (List.map_eq_nil_iff.mp hd))

theorem candTitle_data (orig : String) (c : Nat) :
    (candTitle orig c).data =
      orig.data ++ ((" (" : String).data ++ ((natToString c).data ++
        (")" : String).data)) := by
  unfold candTitle
  simp [String.data_append]

theorem candTitle_inj (orig : String) : Function.Injective (candTitle orig) := by
  intro a b h
  have hdata := congrArg String.data h
  rw [candTitle_data, candTitle_data] at hdata
  have h1 := List.append_cancel_left hdata
  have h2 := List.append_cancel_left h1
  have h3 := List.append_cancel_right h2
  apply natToString_inj
  cases hsa : natToString a with
  | mk da =>
    cases hsb : natToString b with
    | mk db =>
      rw [hsa, hsb] at h3
      simp only at h3
      rw [h3]

theorem orig_ne_candTitle (orig : String) (c : Nat) :
    orig ≠ candTitle orig c := by
  intro h
  have hdata := congrArg String.data h
  rw [candTitle_data] at hdata
  have hlen := congrArg List.length hdata
  simp only [List.length_append] at hlen
  have hne : (natToString c).data.length ≥ 1 := by
    cases hc : (natToString c).data with
    | nil => exact absurd hc (natToString_data_ne_nil c)
    | cons _ _ => simp
  have h2 : (" (" : String).data.length = 2 := by decide
  have h3 : (")" : String).data.length = 1 := by decide
  omega

theorem uniqueTitleAux_fresh (titles : List String) (orig : String) :
    ∀ (fuel counter : Nat) (cur t : String),
      uniqueTitleAux titles orig fuel counter cur = some t → t ∉ titles := by
  intro fuel
  induction fuel with
  | zero => intro counter cur t h; simp [uniqueTitleAux] at h
  | succ fuel ih =>
    intro counter cur t h
    unfold uniqueTitleAux at h
    by_cases hc : cur ∈ titles
    · rw [if_pos hc] at h
      exact ih (counter + 1) (candTitle orig counter) t h
    · rw [if_neg hc] at h
      cases h
      exact hc

theorem uniqueTitleAux_none_subset (titles : List String) (orig : String) :
    ∀ (fuel counter : Nat) (cur : String),
      uniqueTitleAux titles orig (fuel + 1) counter cur = none →
      ∀ x ∈ cur :: (List.range' counter fuel).map (candTitle orig),
        x ∈ titles := by
  intro fuel
  induction fuel with
  | zero =>
    intro counter cur h x hx
    unfold uniqueTitleAux at h
    by_cases hc : cur ∈ titles
    · simp only [List.range'_zero, List.map_nil, List.mem_singleton] at hx
      rw [hx]
      exact hc
    · rw [if_neg hc] at h
      cases h
  | succ fuel ih =>
    intro counter cur h x hx
    unfold uniqueTitleAux at h
    by_cases hc : cur ∈ titles
    · rw [if_pos hc] at h
      rcases List.mem_cons.mp hx with hx1 | hx2
      · rw [hx1]; exact hc
      · have hrange : List.range' counter (fuel + 1) =
            counter :: List.range' (counter + 1) fuel := List.range'_succ ..
        rw [hrange, List.map_cons] at hx2
        have := ih (counter + 1) (candTitle orig counter) h x
        rcases List.mem_cons.mp hx2 with hx3 | hx4
        · exact this (by rw [hx3]; exact List.mem_cons_self _ _)
        · exact this (List.mem_cons_of_mem _ hx4)
    · rw [if_neg hc] at h
      cases h

theorem uniqueTitleAux_isSome (titles : List String) (orig : String) :
    uniqueTitleAux titles orig (titles.length + 1) 2 orig ≠ none := by
  intro hnone
  have hsub := uniqueTitleAux_none_subset titles orig titles.length 2 orig hnone
  set probes := orig :: (List.range' 2 titles.length).map (candTitle orig)
    with hprobes
  have hnodup : probes.Nodup := by
    rw [hprobes]
    refine List.Nodup.cons ?_ ?_
    · intro hmem
      rcases List.mem_map.mp hmem with ⟨c, _, hc⟩
      exact orig_ne_candTitle orig c hc.symm
    · exact (List.nodup_range' 2 titles.length).map (candTitle_inj orig)
  have hlen : probes.length = titles.length + 1 := by
    rw [hprobes]
    simp
  have hcard1 : probes.toFinset.card = probes.length :=
    List.toFinset_card_of_nodup hnodup
  have hcard2 : probes.toFinset ⊆ titles.toFinset := by
    intro x hx
    exact List.mem_toFinset.mpr (hsub x (List.mem_toFinset.mp hx))
  have hcard3 := Finset.card_le_card hcard2
  have hcard4 := titles.toFinset_card_le
  omega

theorem finalUniqueTitle_not_mem (titles : List String) (orig : String) :
    finalUniqueTitle titles orig ∉ titles := by
  unfold finalUniqueTitle
  cases h : uniqueTitleAux titles orig (titles.length + 1) 2 orig with
  | none => exact absurd h (uniqueTitleAux_isSome titles orig)
  | some t =>
    simp only [Option.getD_some]
    exact uniqueTitleAux_fresh titles orig _ 2 orig t h

theorem Artifact.title_withTitle (a : Artifact) (t : String) :
    (a.withTitle t).title = t := by
  cases a <;> rfl

/-- C3: the dispatcher's registration keeps artifact titles unique — the
renamed title never collides with a registered one (so a duplicate-free
registry stays duplicate-free), the artifact is registered under the final
title and returned to the caller renamed; registering two artifacts titled
`Revenue` yields titles `Revenue` and `Revenue (2)`. -/
theorem c3_registry_title_unique :
    (∀ (arts : List Artifact) (a : Artifact),
      ((registerArtifact arts a).2).title ∉ arts.map Artifact.title) ∧
    (∀ (arts : List Artifact) (a : Artifact),
      (registerArtifact arts a).1 = arts ++ [(registerArtifact arts a).2]) ∧
    (∀ (arts : List Artifact) (a : Artifact),
      (arts.map Artifact.title).Nodup →
      (((registerArtifact arts a).1).map Artifact.title).Nodup) ∧
    ((((execute (execute demoState (.generate_report "Revenue" "s" [])).1
        (.generate_report "Revenue" "s" [])).1).artifacts.map Artifact.title) =
      ["Revenue", "Revenue (2)"]) ∧
    (∃ out, ((execute (execute demoState (.generate_report "Revenue" "s" [])).1
        (.generate_report "Revenue" "s" [])).2) = .ok out ∧
      out.artifact.map Artifact.title = some "Revenue (2)") := by
  have hfresh : ∀ (arts : List Artifact) (a : Artifact),
      ((registerArtifact arts a).2).title ∉ arts.map Artifact.title := by
    intro arts a
    unfold registerArtifact
    simp only [Artifact.title_withTitle]
    exact finalUniqueTitle_not_mem _ _
  refine ⟨hfresh, fun arts a => rfl, ?_, by decide, ⟨_, rfl, by decide⟩⟩
  intro arts a hnd
  have h2 : (registerArtifact arts a).1 = arts ++ [(registerArtifact arts a).2] :=
    rfl
  rw [h2, List.map_append]
  rw [List.nodup_append]
  refine ⟨hnd, List.nodup_singleton _, ?_⟩
  intro x hx hy
  simp only [List.map_cons, List.map_nil, List.mem_singleton] at hy
  rw [hy] at hx
  exact hfresh arts a hx

/-- Witness for C3's duplicate-free-registry conjunct at a concrete
registry. -/
theorem c3_registry_title_unique_witness :
    (([Artifact.barChart "Revenue" [] "c" "v"].map Artifact.title).Nodup) ∧
    (((registerArtifact [Artifact.barChart "Revenue" [] "c" "v"]
        (Artifact.barChart "Revenue" [] "c" "v")).1.map Artifact.title).Nodup) :=
  ⟨by decide, c3_registry_title_unique.2.2.1 _ _ (by decide)⟩

/-! Machinery for C4: properties of the report's title resolution and
de-duplication. -/

theorem dedupByTitleAux_sublist (xs : List Artifact) :
    ∀ seen, (dedupByTitleAux seen xs).Sublist xs := by
  induction xs with
  | nil => intro seen; simp [dedupByTitleAux]
  | cons a rest ih =>
    intro seen
    unfold dedupByTitleAux
    by_cases hc : seen.contains a.title
    · rw [if_pos hc]
      exact (ih seen).cons a
    · rw [if_neg hc]
      exact (ih (seen ++ [a.title])).cons₂ a

theorem dedupByTitleAux_avoids_and_nodup (xs : List Artifact) :
    ∀ seen, (∀ a ∈ dedupByTitleAux seen xs, a.title ∉ seen) ∧
      ((dedupByTitleAux seen xs).map Artifact.title).Nodup := by
  induction xs with
  | nil => intro seen; simp [dedupByTitleAux]
  | cons a rest ih =>
    intro seen
    unfold dedupByTitleAux
    by_cases hc : seen.contains a.title
    · rw [if_pos hc]
      exact ih seen
    · rw [if_neg hc]
      have hnotsee : a.title ∉ seen := by
        intro hmem
        exact hc (by simpa using hmem)
      obtain ⟨havoid, hnodup⟩ := ih (seen ++ [a.title])
      constructor
      · intro b hb
        rcases List.mem_cons.mp hb with hb1 | hb2
        · rw [hb1]; exact hnotsee
        · intro hbs
          exact havoid b hb2 (List.mem_append_left _ hbs)
      · rw [List.map_cons]
        refine List.Nodup.cons ?_ hnodup
        intro hmem
        rcases List.mem_map.mp hmem with ⟨b, hb, hbt⟩
        exact havoid b hb (by rw [hbt]; simp)

theorem dedupByTitleAux_filter (xs : List Artifact) :
    ∀ seen t,
      (t ∉ seen →
        (dedupByTitleAux seen xs).filter (fun a => a.title == t) =
          (xs.filter (fun a => a.title == t)).take 1) ∧
      (t ∈ seen →
        (dedupByTitleAux seen xs).filter (fun a => a.title == t) = []) := by
  induction xs with
  | nil => intro seen t; simp [dedupByTitleAux]
  | cons a rest ih =>
    intro seen t
    unfold dedupByTitleAux
    by_cases hc : seen.contains a.title
    · rw [if_pos hc]
      have hseen : a.title ∈ seen := by simpa using hc
      constructor
      · intro hns
        have hat : (a.title == t) = false := by
          rw [beq_eq_false_iff_ne]
          intro hb
          exact hns (by rw [← hb]; exact hseen)
        rw [List.filter_cons, hat]
        simp only [Bool.false_eq_true, if_false]
        exact (ih seen t).1 hns
      · intro hs
        exact (ih seen t).2 hs
    · rw [if_neg hc]
      have hnotsee : a.title ∉ seen := fun hmem =>
        hc (by simpa using hmem)
      constructor
      · intro hns
        by_cases hat : a.title = t
        · have hb : (a.title == t) = true := beq_iff_eq.mpr hat
          rw [List.filter_cons, List.filter_cons, hb]
          simp only [if_true]
          have := (ih (seen ++ [a.title]) t).2
            (by rw [← hat]; exact List.mem_append_right _ (by simp))
          rw [this]
          simp
        · have hb : (a.title == t) = false := beq_eq_false_iff_ne.mpr hat
          rw [List.filter_cons, List.filter_cons, hb]
          simp only [Bool.false_eq_true, if_false]
          exact (ih (seen ++ [a.title]) t).1
            (by
              intro hmem
              rcases List.mem_append.mp hmem with h1 | h2
              · exact hns h1
              · simp at h2
                exact hat h2.symm)
      · intro hs
        have hat : a.title ≠ t := by
          intro he
          exact hnotsee (by rw [he]; exact hs)
        have hb : (a.title == t) = false := beq_eq_false_iff_ne.mpr hat
        rw [List.filter_cons, hb]
        simp only [Bool.false_eq_true, if_false]
        exact (ih (seen ++ [a.title]) t).2 (List.mem_append_left _ hs)

/-- C4: `generate_report` resolution and de-duplication — resolution
matches an artifact by exact trimmed title or by the tag-stripping
fallback, preferring the most recently inserted match; the resolved list is
de-duplicated by final title keeping exactly the first occurrence in order
(the result is an order-preserving duplicate-free sublist); and the claim's
concrete example: requesting `["[bar_chart] Sales", "Sales"]` against a
registry holding only `[bar_chart] Sales` resolves both requests to that
artifact and includes it once in the report. -/
theorem c4_generate_report_resolution :
    (∀ xs : List Artifact, (dedupByTitle xs).Sublist xs) ∧
    (∀ xs : List Artifact, ((dedupByTitle xs).map Artifact.title).Nodup) ∧
    (∀ (xs : List Artifact) (t : String),
      (dedupByTitle xs).filter (fun a => a.title == t) =
        (xs.filter (fun a => a.title == t)).take 1) ∧
    (∀ (arts : List Artifact) (a : Artifact) (req : String),
      reportMatchPred (jsTrim req) a = true → jsTrim req ≠ "" →
      resolveTitle (arts ++ [a]) req = some a) ∧
    (resolveTitle demoBarState.artifacts "[bar_chart] Sales" =
      some (Artifact.barChart "[bar_chart] Sales" [] "region" "amount")) ∧
    (resolveTitle demoBarState.artifacts "Sales" =
      some (Artifact.barChart "[bar_chart] Sales" [] "region" "amount")) ∧
    (∃ out, (generateReport demoBarState "R" "sum"
        ["[bar_chart] Sales", "Sales"]).2 = .ok out ∧
      out.artifact = some (.report "R" "sum"
        [Artifact.barChart "[bar_chart] Sales" [] "region" "amount"] none)) := by
  refine ⟨fun xs => dedupByTitleAux_sublist xs [],
    fun xs => (dedupByTitleAux_avoids_and_nodup xs []).2,
    fun xs t => (dedupByTitleAux_filter xs [] t).1 (List.not_mem_nil t),
    ?_, by rfl, by rfl, ⟨_, rfl, by rfl⟩⟩
  intro arts a req hm hne
  unfold resolveTitle
  rw [if_neg hne]
  have hrev : (arts ++ [a]).reverse = a :: arts.reverse := by simp
  rw [hrev]
  exact List.find?_cons_of_pos _ hm

/-- Witness for C4's most-recent-match conjunct at a concrete registry. -/
theorem c4_generate_report_resolution_witness :
    resolveTitle ([Artifact.pieChart "[pie_chart] Old" [] "c" "v"] ++
      [Artifact.barChart "[bar_chart] Sales" [] "region" "amount"]) "Sales" =
      some (Artifact.barChart "[bar_chart] Sales" [] "region" "amount") :=
  c4_generate_report_resolution.2.2.2.1 _ _ "Sales" (by decide) (by decide)

/-! Machinery for C9: each tool leaves the executor state untouched on
every error path (all its `throw`s precede its `saveResult`). -/

theorem getDatasetSchema_error_state (s : ExecState) (n e : String)
    (h : (getDatasetSchema s n).2 = .error e) : (getDatasetSchema s n).1 = s := by
  rcases hx : getDatasetSchema s n with ⟨s1, r⟩
  rw [hx] at h
  replace h : r = Except.error e := h
  subst h
  show s1 = s
  unfold getDatasetSchema at hx
  dsimp only at hx
  repeat' split at hx
  all_goals
    injection hx with h1 h2
  all_goals first
    | exact h1.symm
    | exact absurd h2 (by simp)

theorem filterData_error_state (s : ExecState) (n c op : String) (v : Value)
    (e : String) (h : (filterData s n c op v).2 = .error e) :
    (filterData s n c op v).1 = s := by
  rcases hx : filterData s n c op v with ⟨s1, r⟩
  rw [hx] at h
  replace h : r = Except.error e := h
  subst h
  show s1 = s
  unfold filterData at hx
  dsimp only at hx
  repeat' split at hx
  all_goals
    injection hx with h1 h2
  all_goals first
    | exact h1.symm
    | exact absurd h2 (by simp)

theorem aggregateData_error_state (s : ExecState) (n : String)
    (g : List String) (c f e : String)
    (h : (aggregateData s n g c f).2 = .error e) :
    (aggregateData s n g c f).1 = s := by
  rcases hx : aggregateData s n g c f with ⟨s1, r⟩
  rw [hx] at h
  replace h : r = Except.error e := h
  subst h
  show s1 = s
  unfold aggregateData at hx
  dsimp only at hx
  repeat' split at hx
  all_goals
    injection hx with h1 h2
  all_goals first
    | exact h1.symm
    | exact absurd h2 (by simp)

theorem addColumn_error_state (s : ExecState) (n c expr e : String)
    (h : (addColumn s n c expr).2 = .error e) : (addColumn s n c expr).1 = s := by
  rcases hx : addColumn s n c expr with ⟨s1, r⟩
  rw [hx] at h
  replace h : r = Except.error e := h
  subst h
  show s1 = s
  unfold addColumn at hx
  dsimp only at hx
  repeat' split at hx
  all_goals
    injection hx with h1 h2
  all_goals first
    | exact h1.symm
    | exact absurd h2 (by simp)

theorem getDescriptiveStats_error_state (s : ExecState) (n c e : String)
    (h : (getDescriptiveStats s n c).2 = .error e) :
    (getDescriptiveStats s n c).1 = s := by
  rcases hx : getDescriptiveStats s n c with ⟨s1, r⟩
  rw [hx] at h
  replace h : r = Except.error e := h
  subst h
  show s1 = s
  unfold getDescriptiveStats at hx
  dsimp only at hx
  repeat' split at hx
  all_goals
    injection hx with h1 h2
  all_goals first
    | exact h1.symm
    | exact absurd h2 (by simp)

theorem joinDatasets_error_state (s : ExecState) (l r lc rc jt e : String)
    (h : (joinDatasets s l r lc rc jt).2 = .error e) :
    (joinDatasets s l r lc rc jt).1 = s := by
  rcases hx : joinDatasets s l r lc rc jt with ⟨s1, rr⟩
  rw [hx] at h
  replace h : rr = Except.error e := h
  subst h
  show s1 = s
  unfold joinDatasets at hx
  dsimp only at hx
  repeat' split at hx
  all_goals
    injection hx with h1 h2
  all_goals first
    | exact h1.symm
    | exact absurd h2 (by simp)

theorem unionDatasets_error_state (s : ExecState) (ns : List String)
    (e : String) (h : (unionDatasets s ns).2 = .error e) :
    (unionDatasets s ns).1 = s := by
  rcases hx : unionDatasets s ns with ⟨s1, r⟩
  rw [hx] at h
  replace h : r = Except.error e := h
  subst h
  show s1 = s
  unfold unionDatasets at hx
  dsimp only at hx
  repeat' split at hx
  all_goals
    injection hx with h1 h2
  all_goals first
    | exact h1.symm
    | exact absurd h2 (by simp)

theorem forecastTimeSeries_error_state (s : ExecState) (n dc vc : String)
    (p : Nat) (f e : String)
    (h : (forecastTimeSeries s n dc vc p f).2 = .error e) :
    (forecastTimeSeries s n dc vc p f).1 = s := by
  rcases hx : forecastTimeSeries s n dc vc p f with ⟨s1, r⟩
  rw [hx] at h
  replace h : r = Except.error e := h
  subst h
  show s1 = s
  unfold forecastTimeSeries at hx
  dsimp only at hx
  repeat' split at hx
  all_goals
    injection hx with h1 h2
  all_goals first
    | exact h1.symm
    | exact absurd h2 (by simp)

theorem forexScenario_error_state (s : ExecState) (b : String) (r : ℚ)
    (p : Option Nat) (e : String)
    (h : (calculateCorrelatedForexScenario s b r p).2 = .error e) :
    (calculateCorrelatedForexScenario s b r p).1 = s := by
  rcases hx : calculateCorrelatedForexScenario s b r p with ⟨s1, rr⟩
  rw [hx] at h
  replace h : rr = Except.error e := h
  subst h
  show s1 = s
  unfold calculateCorrelatedForexScenario at hx
  dsimp only at hx
  injection hx with h1 h2
  exact absurd h2 (by simp)

theorem verifyVisualizationData_error_state (s : ExecState) (n t : String)
    (c : VizColumns) (e : String)
    (h : (verifyVisualizationData s n t c).2 = .error e) :
    (verifyVisualizationData s n t c).1 = s := by
  rcases hx : verifyVisualizationData s n t c with ⟨s1, r⟩
  rw [hx] at h
  replace h : r = Except.error e := h
  subst h
  show s1 = s
  unfold verifyVisualizationData at hx
  dsimp only at hx
  repeat' split at hx
  all_goals
    injection hx with h1 h2
  all_goals first
    | exact h1.symm
    | exact absurd h2 (by simp)

theorem renderTable_error_state (s : ExecState) (n t e : String)
    (h : (renderTable s n t).2 = .error e) : (renderTable s n t).1 = s := by
  rcases hx : renderTable s n t with ⟨s1, r⟩
  rw [hx] at h
  replace h : r = Except.error e := h
  subst h
  show s1 = s
  unfold renderTable at hx
  dsimp only at hx
  repeat' split at hx
  all_goals
    injection hx with h1 h2
  all_goals first
    | exact h1.symm
    | exact absurd h2 (by simp)

theorem renderBarChart_error_state (s : ExecState) (n c v t e : String)
    (h : (renderBarChart s n c v t).2 = .error e) :
    (renderBarChart s n c v t).1 = s := by
  rcases hx : renderBarChart s n c v t with ⟨s1, r⟩
  rw [hx] at h
  replace h : r = Except.error e := h
  subst h
  show s1 = s
  unfold renderBarChart at hx
  dsimp only at hx
  repeat' split at hx
  all_goals
    injection hx with h1 h2
  all_goals first
    | exact h1.symm
    | exact absurd h2 (by simp)

theorem renderPieChart_error_state (s : ExecState) (n c v t e : String)
    (h : (renderPieChart s n c v t).2 = .error e) :
    (renderPieChart s n c v t).1 = s := by
  rcases hx : renderPieChart s n c v t with ⟨s1, r⟩
  rw [hx] at h
  replace h : r = Except.error e := h
  subst h
  show s1 = s
  unfold renderPieChart at hx
  dsimp only at hx
  repeat' split at hx
  all_goals
    injection hx with h1 h2
  all_goals first
    | exact h1.symm
    | exact absurd h2 (by simp)

theorem renderLineChart_error_state (s : ExecState) (n x : String)
    (ys : List String) (t e : String)
    (h : (renderLineChart s n x ys t).2 = .error e) :
    (renderLineChart s n x ys t).1 = s := by
  rcases hx : renderLineChart s n x ys t with ⟨s1, r⟩
  rw [hx] at h
  replace h : r = Except.error e := h
  subst h
  show s1 = s
  unfold renderLineChart at hx
  dsimp only at hx
  repeat' split at hx
  all_goals
    injection hx with h1 h2
  all_goals first
    | exact h1.symm
    | exact absurd h2 (by simp)

theorem renderWorldMap_error_state (s : ExecState) (n l v t e : String)
    (h : (renderWorldMap s n l v t).2 = .error e) :
    (renderWorldMap s n l v t).1 = s := by
  rcases hx : renderWorldMap s n l v t with ⟨s1, r⟩
  rw [hx] at h
  replace h : r = Except.error e := h
  subst h
  show s1 = s
  unfold renderWorldMap at hx
  dsimp only at hx
  repeat' split at hx
  all_goals
    injection hx with h1 h2
  all_goals first
    | exact h1.symm
    | exact absurd h2 (by simp)

theorem renderScatterPlot_error_state (s : ExecState) (n x y t e : String)
    (h : (renderScatterPlot s n x y t).2 = .error e) :
    (renderScatterPlot s n x y t).1 = s := by
  rcases hx : renderScatterPlot s n x y t with ⟨s1, r⟩
  rw [hx] at h
  replace h : r = Except.error e := h
  subst h
  show s1 = s
  unfold renderScatterPlot at hx
  dsimp only at hx
  repeat' split at hx
  all_goals
    injection hx with h1 h2
  all_goals first
    | exact h1.symm
    | exact absurd h2 (by simp)

theorem renderWaterfallChart_error_state (s : ExecState) (n c v t e : String)
    (h : (renderWaterfallChart s n c v t).2 = .error e) :
    (renderWaterfallChart s n c v t).1 = s := by
  rcases hx : renderWaterfallChart s n c v t with ⟨s1, r⟩
  rw [hx] at h
  replace h : r = Except.error e := h
  subst h
  show s1 = s
  unfold renderWaterfallChart at hx
  dsimp only at hx
  repeat' split at hx
  all_goals
    injection hx with h1 h2
  all_goals first
    | exact h1.symm
    | exact absurd h2 (by simp)

theorem generateReport_error_state (s : ExecState) (t sm : String)
    (ts : List String) (e : String)
    (h : (generateReport s t sm ts).2 = .error e) :
    (generateReport s t sm ts).1 = s := by
  rcases hx : generateReport s t sm ts with ⟨s1, r⟩
  rw [hx] at h
  replace h : r = Except.error e := h
  subst h
  show s1 = s
  unfold generateReport at hx
  dsimp only at hx
  injection hx with h1 h2
  exact absurd h2 (by simp)

theorem dispatch_error_state (s : ExecState) (tc : ToolCall) (e : String)
    (h : (dispatch s tc).2 = .error e) : (dispatch s tc).1 = s := by
  cases tc with
  | get_dataset_schema n => exact getDatasetSchema_error_state s n e h
  | filter_data n c op v => exact filterData_error_state s n c op v e h
  | aggregate_data n g c f => exact aggregateData_error_state s n g c f e h
  | add_column n c expr => exact addColumn_error_state s n c expr e h
  | get_descriptive_stats n c => exact getDescriptiveStats_error_state s n c e h
  | join_datasets l r lc rc jt => exact joinDatasets_error_state s l r lc rc jt e h
  | union_datasets ns => exact unionDatasets_error_state s ns e h
  | forecast_time_series n dc vc p f =>
    exact forecastTimeSeries_error_state s n dc vc p f e h
  | calculate_correlated_forex_scenario b r p =>
    exact forexScenario_error_state s b r p e h
  | verify_visualization_data n t c =>
    exact verifyVisualizationData_error_state s n t c e h
  | render_table n t => exact renderTable_error_state s n t e h
  | render_bar_chart n c v t => exact renderBarChart_error_state s n c v t e h
  | render_pie_chart n c v t => exact renderPieChart_error_state s n c v t e h
  | render_line_chart n x ys t => exact renderLineChart_error_state s n x ys t e h
  | render_world_map n l v t => exact renderWorldMap_error_state s n l v t e h
  | render_scatter_plot n x y t => exact renderScatterPlot_error_state s n x y t e h
  | render_waterfall_chart n c v t =>
    exact renderWaterfallChart_error_state s n c v t e h
  | generate_report t sm ts => exact generateReport_error_state s t sm ts e h
  | unknownTool n => rfl

/-- C9: whenever `execute` rejects with an error — unknown tool, missing
dataset, bad column, or any validation failure inside a transformation —
the executor's observable state (datasets, step counter, artifact
registry) is exactly the state before the call. -/
theorem c9_execute_error_state_unchanged (s : ExecState) (tc : ToolCall)
    (e : String) (h : (execute s tc).2 = .error e) : (execute s tc).1 = s := by
  rcases hx : execute s tc with ⟨s1, r⟩
  rw [hx] at h
  replace h : r = Except.error e := h
  subst h
  show s1 = s
  unfold execute at hx
  rcases hd : dispatch s tc with ⟨s2, r2⟩
  rw [hd] at hx
  dsimp only at hx
  cases r2 with
  | error e2 =>
    dsimp only at hx
    injection hx with h1 h2
    have hds : (dispatch s tc).2 = .error e2 := by rw [hd]
    have := dispatch_error_state s tc e2 hds
    rw [hd] at this
    rw [← h1]
    exact this
  | ok out =>
    dsimp only at hx
    cases hart : out.artifact with
    | none =>
      rw [hart] at hx
      dsimp only at hx
      injection hx with h1 h2
      exact absurd h2 (by simp)
    | some a =>
      rw [hart] at hx
      dsimp only at hx
      injection hx with h1 h2
      exact absurd h2 (by simp)

/-- Witness for C9 at a concrete failing call (unknown tool name). -/
theorem c9_execute_error_state_unchanged_witness :
    (execute demoState (.unknownTool "bogus")).1 = demoState :=
  c9_execute_error_state_unchanged demoState (.unknownTool "bogus")
    "Tool \"bogus\" not found." rfl

/-! Machinery for C1 and C2: behavior of the loop. -/

theorem runLoop_turnsUsed_le (ctx : LoopCtx) (env : Nat → ModelResponse) :
    ∀ (fuel turn : Nat) (st : LoopState),
      (runLoop ctx env turn st fuel).turnsUsed ≤ fuel := by
  intro fuel
  induction fuel with
  | zero => intro turn st; simp [runLoop]
  | succ fuel ih =>
    intro turn st
    unfold runLoop
    cases h : stepTurn ctx (env turn) st with
    | exit a k => simp
    | continueWith st' =>
      simpa using Nat.succ_le_succ (ih (turn + 1) st')

theorem runLoop_busy (ctx : LoopCtx) :
    ∀ (fuel turn : Nat) (st : LoopState),
      (runLoop ctx envOneOkCall turn st fuel).finalAnswer = stepLimitMsg ∧
      (runLoop ctx envOneOkCall turn st fuel).turnsUsed = fuel ∧
      (runLoop ctx envOneOkCall turn st fuel).exitKind = .turnLimit := by
  intro fuel
  induction fuel with
  | zero => intro turn st; exact ⟨rfl, rfl, rfl⟩
  | succ fuel ih =>
    intro turn st
    have hstep : stepTurn ctx (envOneOkCall turn) st =
        .continueWith (LoopState.mk .toolResults 0 0 0
          (st.artifactFlag || false) st.reviewCount) := rfl
    unfold runLoop
    rw [hstep]
    have := ih (turn + 1) (LoopState.mk .toolResults 0 0 0
      (st.artifactFlag || false) st.reviewCount)
    exact ⟨this.1, by simpa using this.2.1, this.2.2⟩

/-- C1: one invocation of the orchestration loop terminates within the
fixed 200-turn ceiling for every (even adversarial) response sequence;
a single empty response is retried once with the nudge instruction while a
second consecutive empty response aborts with the no-response terminal
message (as the all-empty run shows concretely: 2 turns, the nudge sent on
the second); and a run that exhausts all 200 turns ends with the fixed
step-limit final message. -/
theorem c1_loop_termination :
    (∀ (ctx : LoopCtx) (env : Nat → ModelResponse) (fuel turn : Nat)
      (st : LoopState), (runLoop ctx env turn st fuel).turnsUsed ≤ fuel) ∧
    (∀ (ctx : LoopCtx) (env : Nat → ModelResponse) (firstMessage : String),
      (runChatLoop ctx env firstMessage).turnsUsed ≤ MAX_TURNS) ∧
    (∀ (ctx : LoopCtx) (msg : LoopMsg) (inv ce : Nat) (flag : Bool) (rc : Nat),
      stepTurn ctx (ModelResponse.mk none []) (LoopState.mk msg 0 inv ce flag rc) =
        .continueWith (LoopState.mk (.text nudgeEmptyMsg) 1 inv ce flag rc)) ∧
    (∀ (ctx : LoopCtx) (msg : LoopMsg) (ec inv ce : Nat) (flag : Bool) (rc : Nat),
      stepTurn ctx (ModelResponse.mk none [])
          (LoopState.mk msg (ec + 1) inv ce flag rc) =
        .exit noResponseMsg .emptyAbort) ∧
    (∀ (ctx : LoopCtx) (firstMessage : String),
      runChatLoop ctx envAllEmpty firstMessage =
        RunResult.mk noResponseMsg 2 .emptyAbort
          [.text firstMessage, .text nudgeEmptyMsg]) ∧
    (∀ (ctx : LoopCtx) (firstMessage : String),
      (runChatLoop ctx envOneOkCall firstMessage).finalAnswer = stepLimitMsg ∧
      (runChatLoop ctx envOneOkCall firstMessage).turnsUsed = MAX_TURNS ∧
      (runChatLoop ctx envOneOkCall firstMessage).exitKind = .turnLimit) := by
  refine ⟨fun ctx env fuel turn st => runLoop_turnsUsed_le ctx env fuel turn st,
    fun ctx env m => runLoop_turnsUsed_le ctx env MAX_TURNS 0 (initLoopState m),
    fun ctx msg inv ce flag rc => rfl,
    ?_,
    fun ctx m => rfl,
    fun ctx m => runLoop_busy ctx MAX_TURNS 0 (initLoopState m)⟩
  intro ctx msg ec inv ce flag rc
  have h1 : ec + 1 + 1 > 1 := by omega
  simp [stepTurn, isFalsyText, h1]

/-- C2: in the loop's sequential tool execution, a successful call resets
the consecutive-error counter to zero and a failed call increments it;
strictly below the threshold (2) the turn ends with a self-correction
instruction naming the failed tool and its error, while reaching the
threshold with no intervening success ends the run with the
translated-error terminal message (shown concretely by a run whose tool
fails twice: error-terminal after 2 turns) — and a success between
failures resets the counter, as the alternating fail/success run reaching
a substantive final answer shows. -/
theorem c2_consecutive_error_threshold :
    (∀ (alm name : String) (b : Bool) (rest : List ModelCall) (ce : Nat)
      (flag : Bool),
      processCalls alm (ModelCall.mk name none b :: rest) ce flag =
        processCalls alm rest 0 (flag || b)) ∧
    (∀ (alm name emsg : String) (b : Bool) (rest : List ModelCall) (flag : Bool),
      processCalls alm (ModelCall.mk name (some emsg) b :: rest) 0 flag =
        .selfCorrect (selfCorrectionPrompt name emsg alm) 1 flag) ∧
    (∀ (alm name emsg : String) (b : Bool) (rest : List ModelCall) (k : Nat)
      (flag : Bool),
      processCalls alm (ModelCall.mk name (some emsg) b :: rest) (k + 1) flag =
        .terminalError (translateErrorMessage emsg ++ errorStopSuffix)) ∧
    (∀ (ctx : LoopCtx) (firstMessage : String),
      runChatLoop ctx envAlwaysFail firstMessage =
        RunResult.mk
          (translateErrorMessage "Dataset \"sales\" not found." ++ errorStopSuffix)
          2 .errorTerminal
          [.text firstMessage,
           .text (selfCorrectionPrompt "filter_data" "Dataset \"sales\" not found."
             ctx.artifactListMessage)]) ∧
    (∀ (ctx : LoopCtx) (firstMessage : String),
      (runChatLoop ctx envFailOkAlternate firstMessage).finalAnswer =
        demoFinalText ∧
      (runChatLoop ctx envFailOkAlternate firstMessage).turnsUsed = 5 ∧
      (runChatLoop ctx envFailOkAlternate firstMessage).exitKind = .finalText) :=
  by
  refine ⟨fun alm name b rest ce flag => rfl,
    fun alm name emsg b rest flag => rfl,
    ?_,
    fun ctx m => rfl,
    fun ctx m => ⟨rfl, rfl, rfl⟩⟩
  intro alm name emsg b rest k flag
  have h1 : k + 1 + 1 ≥ MAX_CONSECUTIVE_ERRORS := by
    unfold MAX_CONSECUTIVE_ERRORS
    omega
  simp [processCalls, h1]

set_option maxRecDepth 100000 in
unseal Rat.mul Rat.add Rat.sub Rat.inv in
/-- C7 (counterexample): with exactly the two parsed points
(2024-01-01, 10), (2024-01-02, 20) and one daily forecast period, the
binary64 least-squares fit does not pass through the points exactly — the
slope denominator `n*sumX2 - sumX*sumX` rounds (the squared timestamps
exceed `2^53`), leaving a residual sum of `66528113 / 2^70 ≈ 5.64e-14`
instead of zero — so `stdError = sqrt(sse / (n - 2)) = sqrt(sse / 0)` is
`+Infinity` and the emitted row has `forecast = 515396066869 / 2^34
≈ 29.999999496445525`, `forecast_upper = +Infinity` and
`forecast_lower = -Infinity`: the claimed equality of the three fails. -/
theorem c7_forecast_counterexample :
    (forecastParsedData demoTs2.data "d" "v").map (fun p => p.v) =
      [JsNum.fin 10, JsNum.fin 20] ∧
    ((((forecastTimeSeries demoTs2State "ts" "d" "v" 1 "daily").2.toOption.bind
        (fun o => o.newDataSet)).bind (fun nds => nds.data.getLast?)).map
      (fun r => (rowGet r "forecast", rowGet r "forecast_upper",
        rowGet r "forecast_lower"))) =
      some (Value.num (JsNum.fin ((515396066869 : ℚ) / (17179869184 : ℚ))),
        Value.num JsNum.posInf, Value.num JsNum.negInf) ∧
    Value.num JsNum.posInf ≠
      Value.num (JsNum.fin ((515396066869 : ℚ) / (17179869184 : ℚ))) ∧
    Value.num JsNum.posInf ≠ Value.num JsNum.negInf ∧
    JsNum.fin ((515396066869 : ℚ) / (17179869184 : ℚ)) ≠ JsNum.fin 30 :=
  ⟨by decide, by decide, by decide, by decide, by decide⟩

set_option maxRecDepth 100000 in
unseal Rat.mul Rat.add Rat.sub Rat.inv in
/-- C7 (amended): whenever the dataset resolves and fewer than two
parseable points remain after dropping unparseable rows,
`forecast_time_series` fails with the insufficient-data error and leaves
the state unchanged; with exactly the two points (2024-01-01, 10),
(2024-01-02, 20) and one period, binary64 rounding leaves a tiny nonzero
residual sum, whose division by `n - 2 = 0` makes `stdError = +Infinity`,
so the emitted row carries a finite `forecast ≈ 29.999999496445525` with
`forecast_upper = +Infinity` and `forecast_lower = -Infinity` — pairwise
distinct rather than all equal. -/
theorem c7_forecast_amended :
    (∀ (s : ExecState) (n dc vc : String) (p : Nat) (f : String) (ds : DataSet),
      getDataset s n = .ok ds →
      (forecastParsedData ds.data dc vc).length < 2 →
      forecastTimeSeries s n dc vc p f =
        (s, .error "Time series forecasting requires at least two data points.")) ∧
    ((((forecastTimeSeries demoTs2State "ts" "d" "v" 1 "daily").2.toOption.bind
        (fun o => o.newDataSet)).bind (fun nds => nds.data.getLast?)).map
      (fun r => (rowGet r "forecast", rowGet r "forecast_upper",
        rowGet r "forecast_lower"))) =
      some (Value.num (JsNum.fin ((515396066869 : ℚ) / (17179869184 : ℚ))),
        Value.num JsNum.posInf, Value.num JsNum.negInf) := by
  constructor
  · intro s n dc vc p f ds hds hlt
    unfold forecastTimeSeries
    rw [hds]
    dsimp only
    rw [if_pos hlt]
  · decide

/-- C7 witness: the one-point series concretely trips the
insufficient-data error with the state unchanged. -/
theorem c7_forecast_amended_witness :
    forecastTimeSeries demoTs1State "ts" "d" "v" 1 "daily" =
      (demoTs1State,
       .error "Time series forecasting requires at least two data points.") :=
  c7_forecast_amended.1 demoTs1State "ts" "d" "v" 1 "daily" demoTs1 (by rfl)
    (by decide)


/-! Lemmas about the row primitives, for the join claim. -/

/-- Appending the `_right` suffix always changes a string. -/
theorem append_right_ne (s : String) : s ++ "_right" ≠ s := by
  intro h
  have hl : (s ++ "_right").length = s.length := by rw [h]
  simp [String.length_append] at hl
  exact absurd hl (by decide)

/-- Reading the key just written. -/
theorem rowGet_rowSet_same (r : Row) (k : String) (v : Value) :
    rowGet (rowSet r k v) k = v := by
  induction r with
  | nil => simp [rowSet, rowGet, List.lookup]
  | cons h t ih =>
    obtain ⟨k1, v1⟩ := h
    by_cases hk : k1 = k
    · simp [rowSet, hk, rowGet, List.lookup]
    · simp only [rowSet, if_neg hk]
      simpa [rowGet, List.lookup, beq_eq_false_iff_ne.mpr (fun h2 => hk h2.symm)]
        using ih

/-- Writing one key leaves every other key unchanged. -/
theorem rowGet_rowSet_ne (r : Row) (k k2 : String) (v : Value) (h : k2 ≠ k) :
    rowGet (rowSet r k v) k2 = rowGet r k2 := by
  induction r with
  | nil => simp [rowSet, rowGet, List.lookup, beq_eq_false_iff_ne.mpr h]
  | cons p t ih =>
    obtain ⟨k1, v1⟩ := p
    by_cases hk : k1 = k
    · subst hk
      simp [rowSet, rowGet, List.lookup, beq_eq_false_iff_ne.mpr h]
    · simp only [rowSet, if_neg hk]
      by_cases hk2 : k2 = k1
      · subst hk2
        simp [rowGet, List.lookup]
      · simpa [rowGet, List.lookup, beq_eq_false_iff_ne.mpr hk2] using ih

/-- Key presence after a write. -/
theorem rowHas_rowSet (r : Row) (k k2 : String) (v : Value) :
    rowHas (rowSet r k v) k2 = if k2 = k then true else rowHas r k2 := by
  induction r with
  | nil =>
    by_cases h : k2 = k
    · simp [rowSet, rowHas, List.lookup, h]
    · simp [rowSet, rowHas, List.lookup, h, beq_eq_false_iff_ne.mpr h]
  | cons p t ih =>
    obtain ⟨k1, v1⟩ := p
    by_cases hk : k1 = k
    · subst hk
      by_cases h : k2 = k1
      · simp [rowSet, rowHas, List.lookup, h]
      · simp [rowSet, rowHas, List.lookup, h, beq_eq_false_iff_ne.mpr h]
    · simp only [rowSet, if_neg hk]
      by_cases h2 : k2 = k1
      · subst h2
        simp [rowHas, List.lookup, if_neg hk]
      · simpa [rowHas, List.lookup, beq_eq_false_iff_ne.mpr h2] using ih

/-- Reading after setting every column of a list to a per-column value:
columns in the list read their value, others are untouched. -/
theorem rowGet_foldl_setAll (val : String → Value) (cols : List String)
    (r0 : Row) (c : String) :
    rowGet (cols.foldl (fun row col => rowSet row col (val col)) r0) c =
      if c ∈ cols then val c else rowGet r0 c := by
  induction cols generalizing r0 with
  | nil => simp
  | cons col rest ih =>
    rw [List.foldl_cons, ih]
    by_cases hc : c ∈ rest
    · simp [hc]
    · by_cases hcc : c = col
      · subst hcc
        simp [hc, rowGet_rowSet_same]
      · simp [hc, hcc, rowGet_rowSet_ne _ _ _ _ hcc]

/-- Presence after setting every column of a list. -/
theorem rowHas_foldl_setAll (val : String → Value) (cols : List String)
    (r0 : Row) (c : String) :
    rowHas (cols.foldl (fun row col => rowSet row col (val col)) r0) c =
      if c ∈ cols then true else rowHas r0 c := by
  induction cols generalizing r0 with
  | nil => simp
  | cons col rest ih =>
    rw [List.foldl_cons, ih]
    by_cases hc : c ∈ rest
    · simp [hc]
    · by_cases hcc : c = col
      · subst hcc
        simp [hc, rowHas_rowSet]
      · simp [hc, hcc, rowHas_rowSet]


/-- The second `forEach` of `mergeRows` never disturbs the join-key column
over a stretch of right columns that excludes `rc`. -/
theorem rowGet_foldl_merge_noRc (lc rc : String) (rr : Option Row)
    (cols : List String) (row0 : Row) (v : Value)
    (hrc : rc ∉ cols) (hsuf : ∀ d ∈ cols, d ++ "_right" ≠ lc)
    (hget : rowGet row0 lc = v) (hhas : rowHas row0 lc = true) :
    rowGet (cols.foldl (fun row col =>
        if col = rc then
          let rv := optRowGet rr col
          if rowGet row lc == Value.null && !(rv == Value.null) then
            rowSet row lc rv
          else row
        else
          let newKey := if rowHas row col then col ++ "_right" else col
          rowSet row newKey (nullCoalesce (optRowGet rr col))) row0) lc = v ∧
    rowHas (cols.foldl (fun row col =>
        if col = rc then
          let rv := optRowGet rr col
          if rowGet row lc == Value.null && !(rv == Value.null) then
            rowSet row lc rv
          else row
        else
          let newKey := if rowHas row col then col ++ "_right" else col
          rowSet row newKey (nullCoalesce (optRowGet rr col))) row0) lc = true := by
  induction cols generalizing row0 with
  | nil => exact ⟨hget, hhas⟩
  | cons col rest ih =>
    have hcol : ¬ col = rc := fun h => hrc (h ▸ List.mem_cons_self col rest)
    simp only [List.foldl_cons, if_neg hcol]
    cases hK : rowHas row0 col with
    | true =>
      simp only [hK, eq_self_iff_true, if_true]
      have hne : lc ≠ col ++ "_right" :=
        fun h => hsuf col (List.mem_cons_self col rest) h.symm
      exact ih (rowSet row0 (col ++ "_right") (nullCoalesce (optRowGet rr col)))
        (fun h => hrc (List.mem_cons_of_mem _ h))
        (fun d hd => hsuf d (List.mem_cons_of_mem _ hd))
        (by rw [rowGet_rowSet_ne _ _ _ _ hne]; exact hget)
        (by rw [rowHas_rowSet, if_neg hne]; exact hhas)
    | false =>
      simp only [hK, Bool.false_eq_true, if_false]
      have hne : lc ≠ col := by
        intro h
        rw [← h, hhas] at hK
        exact absurd hK (by decide)
      exact ih (rowSet row0 col (nullCoalesce (optRowGet rr col)))
        (fun h => hrc (List.mem_cons_of_mem _ h))
        (fun d hd => hsuf d (List.mem_cons_of_mem _ hd))
        (by rw [rowGet_rowSet_ne _ _ _ _ hne]; exact hget)
        (by rw [rowHas_rowSet, if_neg hne]; exact hhas)

/-- The second `forEach` of `mergeRows` never disturbs a left column other
than the join key: its value and presence are stable over all of it. -/
theorem rowGet_foldl_merge_keep (lc rc c : String) (rr : Option Row)
    (cols : List String) (row0 : Row) (v : Value)
    (hclc : c ≠ lc) (hsuf : ∀ d ∈ cols, d ++ "_right" ≠ c)
    (hget : rowGet row0 c = v) (hhas : rowHas row0 c = true) :
    rowGet (cols.foldl (fun row col =>
        if col = rc then
          let rv := optRowGet rr col
          if rowGet row lc == Value.null && !(rv == Value.null) then
            rowSet row lc rv
          else row
        else
          let newKey := if rowHas row col then col ++ "_right" else col
          rowSet row newKey (nullCoalesce (optRowGet rr col))) row0) c = v ∧
    rowHas (cols.foldl (fun row col =>
        if col = rc then
          let rv := optRowGet rr col
          if rowGet row lc == Value.null && !(rv == Value.null) then
            rowSet row lc rv
          else row
        else
          let newKey := if rowHas row col then col ++ "_right" else col
          rowSet row newKey (nullCoalesce (optRowGet rr col))) row0) c = true := by
  induction cols generalizing row0 with
  | nil => exact ⟨hget, hhas⟩
  | cons col rest ih =>
    simp only [List.foldl_cons]
    by_cases hcol : col = rc
    · simp only [if_pos hcol]
      split
      · exact ih (rowSet row0 lc (optRowGet rr col)) (fun d hd => hsuf d (List.mem_cons_of_mem _ hd))
          (by rw [rowGet_rowSet_ne _ _ _ _ hclc]; exact hget)
          (by rw [rowHas_rowSet, if_neg hclc]; exact hhas)
      · exact ih row0 (fun d hd => hsuf d (List.mem_cons_of_mem _ hd)) hget hhas
    · simp only [if_neg hcol]
      cases hK : rowHas row0 col with
      | true =>
        simp only [hK, eq_self_iff_true, if_true]
        have hne : c ≠ col ++ "_right" :=
          fun h => hsuf col (List.mem_cons_self col rest) h.symm
        exact ih (rowSet row0 (col ++ "_right") (nullCoalesce (optRowGet rr col)))
          (fun d hd => hsuf d (List.mem_cons_of_mem _ hd))
          (by rw [rowGet_rowSet_ne _ _ _ _ hne]; exact hget)
          (by rw [rowHas_rowSet, if_neg hne]; exact hhas)
      | false =>
        simp only [hK, Bool.false_eq_true, if_false]
        have hne : c ≠ col := by
          intro h
          rw [← h, hhas] at hK
          exact absurd hK (by decide)
        exact ih (rowSet row0 col (nullCoalesce (optRowGet rr col)))
          (fun d hd => hsuf d (List.mem_cons_of_mem _ hd))
          (by rw [rowGet_rowSet_ne _ _ _ _ hne]; exact hget)
          (by rw [rowHas_rowSet, if_neg hne]; exact hhas)

/-- A key absent from the row and distinct from every incoming column name
(and suffixed name) stays absent through the second `forEach`. -/
theorem rowHas_foldl_merge_absent (lc rc c : String) (rr : Option Row)
    (cols : List String) (row0 : Row)
    (hclc : c ≠ lc) (hd : ∀ d ∈ cols, d ≠ c ∧ d ++ "_right" ≠ c)
    (hhas : rowHas row0 c = false) :
    rowHas (cols.foldl (fun row col =>
        if col = rc then
          let rv := optRowGet rr col
          if rowGet row lc == Value.null && !(rv == Value.null) then
            rowSet row lc rv
          else row
        else
          let newKey := if rowHas row col then col ++ "_right" else col
          rowSet row newKey (nullCoalesce (optRowGet rr col))) row0) c = false := by
  induction cols generalizing row0 with
  | nil => exact hhas
  | cons col rest ih =>
    simp only [List.foldl_cons]
    by_cases hcol : col = rc
    · simp only [if_pos hcol]
      split
      · exact ih (rowSet row0 lc (optRowGet rr col))
          (fun d hdm => hd d (List.mem_cons_of_mem _ hdm))
          (by rw [rowHas_rowSet, if_neg hclc]; exact hhas)
      · exact ih row0 (fun d hdm => hd d (List.mem_cons_of_mem _ hdm)) hhas
    · simp only [if_neg hcol]
      have hcc := hd col (List.mem_cons_self col rest)
      cases hK : rowHas row0 col with
      | true =>
        simp only [hK, eq_self_iff_true, if_true]
        exact ih (rowSet row0 (col ++ "_right") (nullCoalesce (optRowGet rr col)))
          (fun d hdm => hd d (List.mem_cons_of_mem _ hdm))
          (by rw [rowHas_rowSet, if_neg (fun h => hcc.2 h.symm)]; exact hhas)
      | false =>
        simp only [hK, Bool.false_eq_true, if_false]
        exact ih (rowSet row0 col (nullCoalesce (optRowGet rr col)))
          (fun d hdm => hd d (List.mem_cons_of_mem _ hdm))
          (by rw [rowHas_rowSet, if_neg (fun h => hcc.1 h.symm)]; exact hhas)

/-- With no right row, every value the second `forEach` writes is `null`,
so a key other than the join key that already reads `null` still reads
`null` afterwards. -/
theorem rowGet_foldl_mergeNone_null (lc rc c : String)
    (cols : List String) (row0 : Row)
    (hclc : c ≠ lc) (hget : rowGet row0 c = Value.null) :
    rowGet (cols.foldl (fun row col =>
        if col = rc then
          let rv := optRowGet none col
          if rowGet row lc == Value.null && !(rv == Value.null) then
            rowSet row lc rv
          else row
        else
          let newKey := if rowHas row col then col ++ "_right" else col
          rowSet row newKey (nullCoalesce (optRowGet none col))) row0) c
      = Value.null := by
  induction cols generalizing row0 with
  | nil => exact hget
  | cons col rest ih =>
    simp only [List.foldl_cons]
    by_cases hcol : col = rc
    · simp only [if_pos hcol]
      split
      · exact ih (rowSet row0 lc (optRowGet none col))
          (by rw [rowGet_rowSet_ne _ _ _ _ hclc]; exact hget)
      · exact ih row0 hget
    · simp only [if_neg hcol]
      cases hK : rowHas row0 col with
      | true =>
        simp only [hK, eq_self_iff_true, if_true]
        refine ih (rowSet row0 (col ++ "_right") (nullCoalesce (optRowGet none col))) ?_
        by_cases hc2 : c = col ++ "_right"
        · rw [hc2, rowGet_rowSet_same]
          rfl
        · rw [rowGet_rowSet_ne _ _ _ _ hc2]
          exact hget
      | false =>
        simp only [hK, Bool.false_eq_true, if_false]
        refine ih (rowSet row0 col (nullCoalesce (optRowGet none col))) ?_
        by_cases hc2 : c = col
        · rw [hc2, rowGet_rowSet_same]
          rfl
        · rw [rowGet_rowSet_ne _ _ _ _ hc2]
          exact hget


/-- A key present in the row stays present through the second `forEach`
(writes never remove keys). -/
theorem rowHas_foldl_merge_true (lc rc c : String) (rr : Option Row)
    (cols : List String) (row0 : Row) (hhas : rowHas row0 c = true) :
    rowHas (cols.foldl (fun row col =>
        if col = rc then
          let rv := optRowGet rr col
          if rowGet row lc == Value.null && !(rv == Value.null) then
            rowSet row lc rv
          else row
        else
          let newKey := if rowHas row col then col ++ "_right" else col
          rowSet row newKey (nullCoalesce (optRowGet rr col))) row0) c
      = true := by
  induction cols generalizing row0 with
  | nil => exact hhas
  | cons col rest ih =>
    simp only [List.foldl_cons]
    by_cases hcol : col = rc
    · simp only [if_pos hcol]
      split
      · exact ih _ (by rw [rowHas_rowSet]
                       split
                       · rfl
                       · exact hhas)
      · exact ih _ hhas
    · simp only [if_neg hcol]
      cases hK : rowHas row0 col with
      | true =>
        simp only [hK, eq_self_iff_true, if_true]
        exact ih _ (by rw [rowHas_rowSet]
                       split
                       · rfl
                       · exact hhas)
      | false =>
        simp only [hK, Bool.false_eq_true, if_false]
        exact ih _ (by rw [rowHas_rowSet]
                       split
                       · rfl
                       · exact hhas)


/-- The join-key column of a merged row: the null-defaulted left value,
overwritten by the right read exactly when that left value is null and the
right read is not (`toolExecutor.tsx:517`). -/
theorem mergeRows_key (Lcols Rcols : List String) (lc rc : String)
    (lr rr : Option Row)
    (hA : Rcols.Nodup) (hB : rc ∈ Rcols)
    (hC : ∀ d ∈ Rcols, d ++ "_right" ≠ lc) (hlc : lc ∈ Lcols) :
    rowGet (mergeRows Lcols Rcols lc rc lr rr) lc =
      (if nullCoalesce (optRowGet lr lc) == Value.null
          && !(optRowGet rr rc == Value.null)
       then optRowGet rr rc else nullCoalesce (optRowGet lr lc)) := by
  obtain ⟨P, S, hPS⟩ := List.append_of_mem hB
  subst hPS
  rw [List.nodup_append] at hA
  have hrcS : rc ∉ S := (List.nodup_cons.mp hA.2.1).1
  have hrcP : rc ∉ P := fun h => hA.2.2 h (List.mem_cons_self rc S)
  unfold mergeRows
  dsimp only
  rw [List.foldl_append, List.foldl_cons]
  have hget1 : rowGet (Lcols.foldl
      (fun row col => rowSet row col (nullCoalesce (optRowGet lr col))) []) lc =
      nullCoalesce (optRowGet lr lc) := by
    rw [rowGet_foldl_setAll, if_pos hlc]
  have hhas1 : rowHas (Lcols.foldl
      (fun row col => rowSet row col (nullCoalesce (optRowGet lr col))) []) lc =
      true := by
    rw [rowHas_foldl_setAll, if_pos hlc]
  have hPre := rowGet_foldl_merge_noRc lc rc rr P _ _ hrcP
    (fun d hd => hC d (List.mem_append_left _ hd)) hget1 hhas1
  simp only [eq_self_iff_true, if_true]
  rw [hPre.1]
  cases hcond : (nullCoalesce (optRowGet lr lc) == Value.null &&
      !(optRowGet rr rc == Value.null)) with
  | true =>
    simp only [hcond, eq_self_iff_true, if_true]
    exact (rowGet_foldl_merge_noRc lc rc rr S _ _ hrcS
      (fun d hd => hC d (List.mem_append_right _ (List.mem_cons_of_mem _ hd)))
      (rowGet_rowSet_same _ _ _)
      (by rw [rowHas_rowSet]
          split
          · rfl
          · exact hPre.2)).1
  | false =>
    simp only [hcond, Bool.false_eq_true, if_false]
    exact (rowGet_foldl_merge_noRc lc rc rr S _ _ hrcS
      (fun d hd => hC d (List.mem_append_right _ (List.mem_cons_of_mem _ hd)))
      hPre.1 hPre.2).1

/-- In a merged row with no left side, every left column other than the
join key reads `null`. -/
theorem mergeRows_left_pad (Lcols Rcols : List String) (lc rc c : String)
    (rr : Option Row)
    (hc : c ∈ Lcols) (hclc : c ≠ lc)
    (hC : ∀ d ∈ Rcols, d ++ "_right" ≠ c) :
    rowGet (mergeRows Lcols Rcols lc rc none rr) c = Value.null := by
  unfold mergeRows
  dsimp only
  have h1 : rowGet (Lcols.foldl
      (fun row col => rowSet row col (nullCoalesce (optRowGet none col))) []) c =
      Value.null := by
    rw [rowGet_foldl_setAll, if_pos hc]
    rfl
  have h2 : rowHas (Lcols.foldl
      (fun row col => rowSet row col (nullCoalesce (optRowGet none col))) []) c =
      true := by
    rw [rowHas_foldl_setAll, if_pos hc]
  exact (rowGet_foldl_merge_keep lc rc c rr Rcols _ _ hclc hC h1 h2).1

/-- In a merged row with no right side, every right column other than the
join key reads `null` under its output name. -/
theorem mergeRows_right_pad (Lcols Rcols : List String) (lc rc c : String)
    (lr : Option Row)
    (hA : Rcols.Nodup) (hc : c ∈ Rcols) (hcrc : c ≠ rc) (hlc : lc ∈ Lcols)
    (hC : ∀ d ∈ Rcols, d ++ "_right" ∉ Lcols ∧ d ++ "_right" ∉ Rcols) :
    rowGet (mergeRows Lcols Rcols lc rc lr none) (rightColName Lcols c)
      = Value.null := by
  obtain ⟨P, S, hPS⟩ := List.append_of_mem hc
  subst hPS
  rw [List.nodup_append] at hA
  have hcS : c ∉ S := (List.nodup_cons.mp hA.2.1).1
  have hcP : c ∉ P := fun h => hA.2.2 h (List.mem_cons_self c S)
  unfold mergeRows
  dsimp only
  rw [List.foldl_append, List.foldl_cons]
  by_cases hmem : c ∈ Lcols
  · -- conflicting name: lands in the `_right` column
    have hK : rightColName Lcols c = c ++ "_right" := by
      rw [rightColName, if_pos hmem]
    rw [hK]
    have hhas1 : rowHas (Lcols.foldl
        (fun row col => rowSet row col (nullCoalesce (optRowGet lr col))) []) c =
        true := by
      rw [rowHas_foldl_setAll, if_pos hmem]
    have hPH : rowHas (P.foldl (fun row col =>
        if col = rc then
          let rv := optRowGet none col
          if rowGet row lc == Value.null && !(rv == Value.null) then
            rowSet row lc rv
          else row
        else
          let newKey := if rowHas row col then col ++ "_right" else col
          rowSet row newKey (nullCoalesce (optRowGet none col)))
        (Lcols.foldl
          (fun row col => rowSet row col (nullCoalesce (optRowGet lr col))) []))
        c = true :=
      rowHas_foldl_merge_true lc rc c none P _ hhas1
    simp only [if_neg hcrc, hPH, eq_self_iff_true, if_true]
    refine rowGet_foldl_mergeNone_null lc rc (c ++ "_right") S _
      (fun h => (hC c hc).1 (h ▸ hlc)) ?_
    rw [rowGet_rowSet_same]
    rfl
  · -- fresh name: lands in its own column
    have hK : rightColName Lcols c = c := by
      rw [rightColName, if_neg hmem]
    rw [hK]
    have hclc : c ≠ lc := fun h => hmem (h ▸ hlc)
    have hhas1 : rowHas (Lcols.foldl
        (fun row col => rowSet row col (nullCoalesce (optRowGet lr col))) []) c =
        false := by
      rw [rowHas_foldl_setAll, if_neg hmem]
      rfl
    have hPH : rowHas (P.foldl (fun row col =>
        if col = rc then
          let rv := optRowGet none col
          if rowGet row lc == Value.null && !(rv == Value.null) then
            rowSet row lc rv
          else row
        else
          let newKey := if rowHas row col then col ++ "_right" else col
          rowSet row newKey (nullCoalesce (optRowGet none col)))
        (Lcols.foldl
          (fun row col => rowSet row col (nullCoalesce (optRowGet lr col))) []))
        c = false := by
      refine rowHas_foldl_merge_absent lc rc c none P _ hclc ?_ hhas1
      intro d hd
      refine ⟨fun h => hcP (h ▸ hd), fun h => (hC d (List.mem_append_left _ hd)).2
        (h ▸ hc)⟩
    simp only [if_neg hcrc, hPH, Bool.false_eq_true, if_false]
    refine rowGet_foldl_mergeNone_null lc rc c S _ hclc ?_
    rw [rowGet_rowSet_same]
    rfl


/-- Group-map lookup at the head key. -/
theorem lookup_cons_self (k : Value) (v : List Row)
    (t : List (Value × List Row)) :
    List.lookup k ((k, v) :: t) = some v := by
  simp [List.lookup]

/-- Group-map lookup skipping a different head key. -/
theorem lookup_cons_ne (k a : Value) (h : k ≠ a) (v : List Row)
    (t : List (Value × List Row)) :
    List.lookup k ((a, v) :: t) = List.lookup k t := by
  simp [List.lookup, beq_eq_false_iff_ne.mpr h]

/-- Looking a key up after extending one group of the accumulator. -/
theorem lookup_map_upd (acc : List (Value × List Row)) (kr k : Value)
    (row : Row) :
    List.lookup k (acc.map (fun p => if p.1 = kr then (p.1, p.2 ++ [row]) else p)) =
      if k = kr then (List.lookup k acc).map (fun l => l ++ [row])
      else List.lookup k acc := by
  induction acc with
  | nil => by_cases h : k = kr <;> simp [List.lookup, h]
  | cons p t ih =>
    obtain ⟨pk, pv⟩ := p
    simp only [List.map_cons]
    by_cases hpk : pk = kr
    · rw [if_pos hpk]
      by_cases hk : k = pk
      · rw [hk, if_pos hpk, lookup_cons_self, lookup_cons_self]
        rfl
      · have hkkr : ¬ k = kr := fun h => hk (h.trans hpk.symm)
        rw [lookup_cons_ne _ _ hk, if_neg hkkr, lookup_cons_ne _ _ hk, ih,
          if_neg hkkr]
    · rw [if_neg hpk]
      by_cases hk : k = pk
      · have hkkr : ¬ k = kr := fun h => hpk (hk.symm.trans h)
        rw [hk, if_neg (fun h => hpk h), lookup_cons_self, lookup_cons_self]
      · rw [lookup_cons_ne _ _ hk, lookup_cons_ne _ _ hk, ih]

/-- Looking a key up after appending a fresh group at the end. -/
theorem lookup_append_pair (acc : List (Value × List Row)) (kr k : Value)
    (l : List Row) :
    List.lookup k (acc ++ [(kr, l)]) =
      (match List.lookup k acc with
       | some v => some v
       | none => if k = kr then some l else none) := by
  induction acc with
  | nil =>
    by_cases h : k = kr
    · rw [List.nil_append, h, lookup_cons_self]
      simp [List.lookup, h]
    · rw [List.nil_append, lookup_cons_ne _ _ h]
      simp [List.lookup, h]
  | cons p t ih =>
    obtain ⟨pk, pv⟩ := p
    rw [List.cons_append]
    by_cases hk : k = pk
    · rw [hk, lookup_cons_self, lookup_cons_self]
    · rw [lookup_cons_ne _ _ hk, lookup_cons_ne _ _ hk, ih]

/-- The grouping fold of `join_datasets`, characterised: a key maps to the
(ordered) right rows whose join key equals it, on top of whatever the
accumulator already held. -/
theorem lookup_groupByKey_foldl (rc : String) (k : Value) (R : List Row) :
    ∀ (acc : List (Value × List Row)),
    List.lookup k (R.foldl (fun acc row =>
        let kr := rowGet row rc
        if (List.lookup kr acc).isSome then
          acc.map (fun p => if p.1 = kr then (p.1, p.2 ++ [row]) else p)
        else acc ++ [(kr, [row])]) acc) =
      (match List.lookup k acc with
       | some v => some (v ++ R.filter (fun r => rowGet r rc == k))
       | none =>
         if R.filter (fun r => rowGet r rc == k) = [] then none
         else some (R.filter (fun r => rowGet r rc == k))) := by
  induction R with
  | nil =>
    intro acc
    cases hl : List.lookup k acc <;> simp [hl]
  | cons row R2 ih =>
    intro acc
    rw [List.foldl_cons, ih]
    dsimp only
    cases hbeq : (rowGet row rc == k) with
    | true =>
      have hkr : rowGet row rc = k := by simpa using hbeq
      have hfc : List.filter (fun r => rowGet r rc == k) (row :: R2) =
          row :: List.filter (fun r => rowGet r rc == k) R2 := by
        rw [List.filter_cons]
        simp [hbeq]
      cases hl : List.lookup k acc with
      | some v =>
        have hs : (List.lookup (rowGet row rc) acc).isSome = true := by
          rw [hkr, hl]
          rfl
        rw [if_pos hs, lookup_map_upd, if_pos hkr.symm, hl, hfc]
        simp [List.append_assoc]
      | none =>
        have hs : ¬ ((List.lookup (rowGet row rc) acc).isSome = true) := by
          rw [hkr, hl]
          simp
        rw [if_neg hs, lookup_append_pair, hl, hfc]
        rw [if_pos hkr.symm]
        simp
    | false =>
      have hkr : ¬ (k = rowGet row rc) := by
        intro h
        rw [h] at hbeq
        simp at hbeq
      have hfc : List.filter (fun r => rowGet r rc == k) (row :: R2) =
          List.filter (fun r => rowGet r rc == k) R2 := by
        rw [List.filter_cons]
        simp [hbeq]
      cases hl : List.lookup (rowGet row rc) acc with
      | some v =>
        rw [if_pos (show (some v).isSome = true from rfl), lookup_map_upd,
          if_neg hkr, hfc]
      | none =>
        rw [if_neg (show ¬ ((none : Option (List Row)).isSome = true) from
          by simp), lookup_append_pair, hfc]
        cases hlk : List.lookup k acc with
        | some v => simp [hlk]
        | none => simp [hlk, if_neg hkr]

/-- `rightMapGrouped.get(key)`: the grouped right rows for a key are exactly
the right rows whose join key equals it. -/
theorem lookup_groupByKey (R : List Row) (rc : String) (k : Value) :
    List.lookup k (groupByKey R rc) =
      (if R.filter (fun r => rowGet r rc == k) = [] then none
       else some (R.filter (fun r => rowGet r rc == k))) := by
  unfold groupByKey
  rw [lookup_groupByKey_foldl]
  simp [List.lookup]


/-- Summing the per-left-row contribution of the first join pass: the
number of key matches when there are any, else one padded row. -/
theorem sum_contrib_left (lc rc : String) (R : List Row) (L : List Row) :
    (L.map (fun l =>
      if R.filter (fun r => rowGet r rc == rowGet l lc) = [] then 1
      else (R.filter (fun r => rowGet r rc == rowGet l lc)).length)).sum =
    matchedPairCount L R lc rc + unmatchedLeftCount L R lc rc := by
  induction L with
  | nil => simp [matchedPairCount, unmatchedLeftCount]
  | cons l L2 ih =>
    unfold matchedPairCount unmatchedLeftCount
    unfold matchedPairCount unmatchedLeftCount at ih
    simp only [List.map_cons, List.sum_cons, List.filter_cons]
    by_cases hf : R.filter (fun r => rowGet r rc == rowGet l lc) = []
    · have hany : (R.any (fun r => rowGet r rc == rowGet l lc)) = false := by
        rw [List.any_eq_false]
        intro r hr hp
        have hm : r ∈ R.filter (fun r => rowGet r rc == rowGet l lc) :=
          List.mem_filter.mpr ⟨hr, hp⟩
        rw [hf] at hm
        exact absurd hm (List.not_mem_nil r)
      rw [if_pos hf, ih, hf]
      simp [hany]
      omega
    · obtain ⟨r0, hr0⟩ := List.exists_mem_of_ne_nil _ hf
      obtain ⟨hr0R, hp0⟩ := List.mem_filter.mp hr0
      have hany : (R.any (fun r => rowGet r rc == rowGet l lc)) = true :=
        List.any_eq_true.mpr ⟨r0, hr0R, hp0⟩
      rw [if_neg hf, ih]
      simp [hany]
      omega

/-- `Set.has` membership of a `List`-modelled set, as `any`. -/
theorem contains_eq_any (s : List Value) (k : Value) :
    s.contains k = s.any (fun v => k == v) := by
  induction s with
  | nil => rfl
  | cons a t ih =>
    simp only [List.any_cons, ← ih]
    rfl

/-- A right row's key is among the matched keys exactly when some left row
carries the same join key. -/
theorem contains_matchedKeys (L R : List Row) (lc rc : String) (r : Row)
    (hr : r ∈ R) :
    (matchedKeys L lc (groupByKey R rc)).contains (rowGet r rc) =
      L.any (fun l => rowGet l lc == rowGet r rc) := by
  rw [contains_eq_any, Bool.eq_iff_iff]
  constructor
  · intro hc
    rw [List.any_eq_true]
    rw [List.any_eq_true] at hc
    obtain ⟨v, hv, hbeq⟩ := hc
    have hveq : rowGet r rc = v := by simpa using hbeq
    unfold matchedKeys at hv
    rw [List.mem_filterMap] at hv
    obtain ⟨l, hlL, hfl⟩ := hv
    dsimp only at hfl
    by_cases hs : (List.lookup (rowGet l lc) (groupByKey R rc)).isSome = true
    · rw [if_pos hs] at hfl
      injection hfl with hfl2
      refine ⟨l, hlL, ?_⟩
      rw [hfl2, ← hveq]
      simp
    · rw [if_neg hs] at hfl
      exact absurd hfl (by simp)
  · intro ha
    rw [List.any_eq_true] at ha
    obtain ⟨l, hlL, hbeq⟩ := ha
    have hleq : rowGet l lc = rowGet r rc := by simpa using hbeq
    rw [List.any_eq_true]
    refine ⟨rowGet r rc, ?_, by simp⟩
    unfold matchedKeys
    rw [List.mem_filterMap]
    refine ⟨l, hlL, ?_⟩
    dsimp only
    have hmem : r ∈ R.filter (fun x => rowGet x rc == rowGet r rc) :=
      List.mem_filter.mpr ⟨hr, by simp⟩
    have hs : (List.lookup (rowGet l lc) (groupByKey R rc)).isSome = true := by
      rw [hleq, lookup_groupByKey]
      rw [if_neg (show ¬ (R.filter (fun x => rowGet x rc == rowGet r rc) = [])
        from fun h => List.not_mem_nil r (h ▸ hmem))]
      rfl
    rw [if_pos hs, hleq]


/-- Length of the first pass of `join_datasets` when both the match branch
and the unmatched-left branch emit (the left and full joins): one row per
matched pair plus one per unmatched left row. -/
theorem pass1_canon_length (Lcols Rcols : List String) (lc rc : String)
    (R : List Row) (L : List Row) :
    (L.flatMap (fun leftRow =>
      match List.lookup (rowGet leftRow lc) (groupByKey R rc) with
      | some matching => matching.map (fun rightRow =>
          mergeRows Lcols Rcols lc rc (some leftRow) (some rightRow))
      | none => [mergeRows Lcols Rcols lc rc (some leftRow) none])).length
    = matchedPairCount L R lc rc + unmatchedLeftCount L R lc rc := by
  induction L with
  | nil => simp [matchedPairCount, unmatchedLeftCount]
  | cons l L2 ih =>
    rw [List.flatMap_cons, List.length_append, ih]
    unfold matchedPairCount unmatchedLeftCount
    unfold matchedPairCount unmatchedLeftCount at ih
    simp only [List.map_cons, List.sum_cons, List.filter_cons]
    rw [lookup_groupByKey]
    by_cases hf : R.filter (fun r => rowGet r rc == rowGet l lc) = []
    · have hany : (R.any (fun r => rowGet r rc == rowGet l lc)) = false := by
        rw [List.any_eq_false]
        intro r hr hp
        have hm : r ∈ R.filter (fun r => rowGet r rc == rowGet l lc) :=
          List.mem_filter.mpr ⟨hr, hp⟩
        rw [hf] at hm
        exact absurd hm (List.not_mem_nil r)
      rw [if_pos hf, hf]
      simp [hany]
      omega
    · obtain ⟨r0, hr0⟩ := List.exists_mem_of_ne_nil _ hf
      obtain ⟨hr0R, hp0⟩ := List.mem_filter.mp hr0
      have hany : (R.any (fun r => rowGet r rc == rowGet l lc)) = true :=
        List.any_eq_true.mpr ⟨r0, hr0R, hp0⟩
      rw [if_neg hf]
      simp [hany]
      omega

/-- Left join row count: one row per matched pair plus one per unmatched
left row. -/
theorem joinedRows_length_left (Lcols Rcols : List String) (lc rc : String)
    (L R : List Row) :
    (joinedRows Lcols Rcols lc rc "left" L R).length =
      matchedPairCount L R lc rc + unmatchedLeftCount L R lc rc := by
  unfold joinedRows
  show ((L.flatMap (fun leftRow =>
      match List.lookup (rowGet leftRow lc) (groupByKey R rc) with
      | some matching => matching.map (fun rightRow =>
          mergeRows Lcols Rcols lc rc (some leftRow) (some rightRow))
      | none => [mergeRows Lcols Rcols lc rc (some leftRow) none])) ++
      ([] : List Row)).length =
    matchedPairCount L R lc rc + unmatchedLeftCount L R lc rc
  rw [List.append_nil, pass1_canon_length]

/-- Full join row count: matched pairs plus unmatched left rows plus
unmatched right rows. -/
theorem joinedRows_length_full (Lcols Rcols : List String) (lc rc : String)
    (L R : List Row) :
    (joinedRows Lcols Rcols lc rc "full" L R).length =
      matchedPairCount L R lc rc + unmatchedLeftCount L R lc rc +
        unmatchedRightCount L R lc rc := by
  unfold joinedRows
  show ((L.flatMap (fun leftRow =>
      match List.lookup (rowGet leftRow lc) (groupByKey R rc) with
      | some matching => matching.map (fun rightRow =>
          mergeRows Lcols Rcols lc rc (some leftRow) (some rightRow))
      | none => [mergeRows Lcols Rcols lc rc (some leftRow) none])) ++
      (R.filter (fun rightRow =>
        !((matchedKeys L lc (groupByKey R rc)).contains
          (rowGet rightRow rc)))).map
        (fun rightRow => mergeRows Lcols Rcols lc rc none (some rightRow))).length =
    matchedPairCount L R lc rc + unmatchedLeftCount L R lc rc +
      unmatchedRightCount L R lc rc
  rw [List.length_append, pass1_canon_length, List.length_map]
  have hfc : R.filter (fun rightRow =>
      !((matchedKeys L lc (groupByKey R rc)).contains (rowGet rightRow rc))) =
      R.filter (fun rightRow =>
        !(L.any (fun l => rowGet l lc == rowGet rightRow rc))) :=
    List.filter_congr (fun r hrm => by
      rw [contains_matchedKeys L R lc rc r hrm])
  rw [hfc]
  rfl


/-- For a supported join type the tool succeeds and the produced dataset
holds exactly the joined rows. -/
theorem joinDatasets_newDataSet (s : ExecState) (ln rn lc rc jt : String)
    (dl dr : DataSet)
    (hjt : jt = "left" ∨ jt = "full")
    (hl : getDataset s ln = .ok dl) (hr : getDataset s rn = .ok dr) :
    ∃ out, (joinDatasets s ln rn lc rc jt).2 = .ok out ∧
      ∃ nds, out.newDataSet = some nds ∧
        nds.data = joinedRows dl.stats.columnNames dr.stats.columnNames
          lc rc jt dl.data dr.data := by
  rcases hjt with h | h <;>
    (subst h
     unfold joinDatasets
     rw [if_neg (by decide), hl, hr]
     dsimp only
     split
     · exact ⟨_, rfl, _, rfl, rfl⟩
     · exact ⟨_, rfl, _, rfl, rfl⟩)


/-- C6: `join_datasets` row counts and padding. The left join produces one
row per matched left-right pair plus one per unmatched left row; the full
join additionally appends one row per unmatched right row. In a padded row
with the right side missing, every non-key right column reads `null` under
its output name, and the join-key column keeps the (null-defaulted) left
value unless that value is null, in which case the coalescing branch reads
the absent right side and stores `undefined`. In a padded row with the left
side missing, every non-key left column reads `null` and the join-key
column coalesces to the right key when it is non-null. The column
hypotheses are the well-formedness of the datasets: distinct right column
names containing the right join column, a left column list containing the
left join column, and no column literally named like a `_right`-suffixed
right column. -/
theorem c6_join_counts_and_padding :
    (∀ (s : ExecState) (ln rn lc rc : String) (dl dr : DataSet),
      getDataset s ln = .ok dl → getDataset s rn = .ok dr →
      ∃ out, (joinDatasets s ln rn lc rc "left").2 = .ok out ∧
        ∃ nds, out.newDataSet = some nds ∧
          nds.data.length =
            matchedPairCount dl.data dr.data lc rc +
              unmatchedLeftCount dl.data dr.data lc rc) ∧
    (∀ (s : ExecState) (ln rn lc rc : String) (dl dr : DataSet),
      getDataset s ln = .ok dl → getDataset s rn = .ok dr →
      ∃ out, (joinDatasets s ln rn lc rc "full").2 = .ok out ∧
        ∃ nds, out.newDataSet = some nds ∧
          nds.data.length =
            matchedPairCount dl.data dr.data lc rc +
              unmatchedLeftCount dl.data dr.data lc rc +
              unmatchedRightCount dl.data dr.data lc rc) ∧
    (∀ (Lcols Rcols : List String) (lc rc : String) (l : Row) (c : String),
      Rcols.Nodup → lc ∈ Lcols → rc ∈ Rcols →
      (∀ d ∈ Rcols, d ++ "_right" ∉ Lcols ∧ d ++ "_right" ∉ Rcols) →
      c ∈ Rcols → c ≠ rc →
      rowGet (mergeRows Lcols Rcols lc rc (some l) none)
        (rightColName Lcols c) = Value.null) ∧
    (∀ (Lcols Rcols : List String) (lc rc : String) (l : Row),
      Rcols.Nodup → lc ∈ Lcols → rc ∈ Rcols →
      (∀ d ∈ Rcols, d ++ "_right" ∉ Lcols) →
      rowGet (mergeRows Lcols Rcols lc rc (some l) none) lc =
        (if nullCoalesce (rowGet l lc) == Value.null then Value.undef
         else nullCoalesce (rowGet l lc))) ∧
    (∀ (Lcols Rcols : List String) (lc rc : String) (r : Row) (c : String),
      lc ∈ Lcols → c ∈ Lcols → c ≠ lc →
      (∀ d ∈ Rcols, d ++ "_right" ∉ Lcols) →
      rowGet (mergeRows Lcols Rcols lc rc none (some r)) c = Value.null) ∧
    (∀ (Lcols Rcols : List String) (lc rc : String) (r : Row),
      Rcols.Nodup → lc ∈ Lcols → rc ∈ Rcols →
      (∀ d ∈ Rcols, d ++ "_right" ∉ Lcols) →
      rowGet (mergeRows Lcols Rcols lc rc none (some r)) lc =
        (if rowGet r rc == Value.null then Value.null else rowGet r rc)) := by
  refine ⟨?_, ?_, ?_, ?_, ?_, ?_⟩
  · intro s ln rn lc rc dl dr hl hr
    obtain ⟨out, hout, nds, hnds, hdata⟩ :=
      joinDatasets_newDataSet s ln rn lc rc "left" dl dr (Or.inl rfl) hl hr
    exact ⟨out, hout, nds, hnds, by rw [hdata, joinedRows_length_left]⟩
  · intro s ln rn lc rc dl dr hl hr
    obtain ⟨out, hout, nds, hnds, hdata⟩ :=
      joinDatasets_newDataSet s ln rn lc rc "full" dl dr (Or.inr rfl) hl hr
    exact ⟨out, hout, nds, hnds, by rw [hdata, joinedRows_length_full]⟩
  · intro Lcols Rcols lc rc l c hA hlc hrc hC hc hcrc
    exact mergeRows_right_pad Lcols Rcols lc rc c (some l) hA hc hcrc hlc hC
  · intro Lcols Rcols lc rc l hA hlc hrc hC
    rw [mergeRows_key Lcols Rcols lc rc (some l) none hA hrc
      (fun d hd h => hC d hd (h ▸ hlc)) hlc]
    show (if (nullCoalesce (rowGet l lc) == Value.null &&
        !(optRowGet none rc == Value.null)) = true then optRowGet none rc
      else nullCoalesce (rowGet l lc)) =
      (if (nullCoalesce (rowGet l lc) == Value.null) = true then Value.undef
       else nullCoalesce (rowGet l lc))
    cases h : (nullCoalesce (rowGet l lc) == Value.null) with
    | true =>
      rw [if_pos (show (true && !(optRowGet none rc == Value.null)) = true
        from rfl), if_pos rfl]
      rfl
    | false =>
      rw [if_neg (show ¬ ((false &&
        !(optRowGet none rc == Value.null)) = true) from by simp),
        if_neg (show ¬ ((false : Bool) = true) from by simp)]
  · intro Lcols Rcols lc rc r c hlc hc hclc hC
    exact mergeRows_left_pad Lcols Rcols lc rc c (some r) hc hclc
      (fun d hd h => hC d hd (h ▸ hc))
  · intro Lcols Rcols lc rc r hA hlc hrc hC
    rw [mergeRows_key Lcols Rcols lc rc none (some r) hA hrc
      (fun d hd h => hC d hd (h ▸ hlc)) hlc]
    show (if (true && !(rowGet r rc == Value.null)) = true then rowGet r rc
      else Value.null) =
      (if (rowGet r rc == Value.null) = true then Value.null else rowGet r rc)
    cases h : (rowGet r rc == Value.null) with
    | true =>
      rw [if_neg (show ¬ ((true && !true) = true) from by simp),
        if_pos rfl]
    | false =>
      rw [if_pos (show (true && !false) = true from rfl),
        if_neg (show ¬ ((false : Bool) = true) from by simp)]

/-- C6 witness: the concrete two-column join fixture (left keys 1 and 2,
right keys 1, 1 and 3) exercises the counts and both padding shapes. -/
theorem c6_join_counts_and_padding_witness :
    (∃ out, (joinDatasets demoJoinState "l" "r" "k" "k" "left").2 = .ok out ∧
      ∃ nds, out.newDataSet = some nds ∧
        nds.data.length =
          matchedPairCount demoLeftDs.data demoRightDs.data "k" "k" +
            unmatchedLeftCount demoLeftDs.data demoRightDs.data "k" "k") ∧
    rowGet (mergeRows ["k", "a"] ["k", "b"] "k" "k"
        (some [("k", Value.num (JsNum.fin 2)), ("a", Value.str "y")]) none)
      (rightColName ["k", "a"] "b") = Value.null ∧
    rowGet (mergeRows ["k", "a"] ["k", "b"] "k" "k" none
        (some [("k", Value.num (JsNum.fin 3)), ("b", Value.str "z")])) "a"
      = Value.null :=
  ⟨c6_join_counts_and_padding.1 demoJoinState "l" "r" "k" "k"
     demoLeftDs demoRightDs rfl rfl,
   c6_join_counts_and_padding.2.2.1 ["k", "a"] ["k", "b"] "k" "k"
     [("k", Value.num (JsNum.fin 2)), ("a", Value.str "y")] "b"
     (by decide) (by decide) (by decide) (by decide) (by decide) (by decide),
   c6_join_counts_and_padding.2.2.2.2.1 ["k", "a"] ["k", "b"] "k" "k"
     [("k", Value.num (JsNum.fin 3)), ("b", Value.str "z")] "a"
     (by decide) (by decide) (by decide) (by decide)⟩

end TreasuryAgent
